import Mathlib

/-!
Verification of the PFM-007 ledger consistency and reconciliation engine.

This file gives a shallow embedding, in Lean 4, of the balance-mutation
primitives, the transfer-leg pairing algorithm, the cross-batch transfer
matcher, the bulk-ingestion pipeline, the recurring-occurrence scheduler and
the credit-card billing engine of the repository, and proves (or refutes)
the specification claims about them.

Modelling conventions:
* Monetary amounts are modelled as exact integers in minor units.  The
  Python source stores amounts as floats holding minor-unit money values; on
  that integer domain the float operations the engine uses (addition,
  negation, absolute value, comparison against the integer tolerances) are
  exact, so the embedding computes the same values as the source.
* Python truthiness on optional integers and strings is made explicit
  (`truthyId`, `truthyStr`): `if account_id:` is false for both `None` and
  `0`, `if name:` is false for both `None` and the empty string.
* Database rows live in lists; `query(...).first()` becomes `List.find?`,
  `query(...).all()` becomes `List.filter`.
-/

namespace PFM

/-- Account kinds, from `models.AccountType`. -/
inductive AccountType where
  | DEPOSIT | SAVINGS | LOAN | CREDIT_LINE | RETIREMENT | FUND | STOCK
  | CRYPTO | OTHER | CHECK_CARD | CREDIT_CARD
  deriving DecidableEq, Repr

/-- The two card kinds: membership test for
`type in (AccountType.CREDIT_CARD, AccountType.CHECK_CARD)`. -/
def AccountType.isCard : AccountType → Bool
  | .CREDIT_CARD => true
  | .CHECK_CARD => true
  | _ => false

/-- Transaction kinds, from `models.TxnType`. -/
inductive TxnType where
  | INCOME | EXPENSE | TRANSFER | SETTLEMENT
  deriving DecidableEq, Repr

/-- Transaction status, from `models.TransactionStatus`. -/
inductive TransactionStatus where
  | CLEARED | PENDING_PAYMENT
  deriving DecidableEq, Repr

/-- Credit-card statement status, from `models.CreditCardStatementStatus`. -/
inductive CreditCardStatementStatus where
  | PENDING | CLOSED | PAID
  deriving DecidableEq, Repr

/-- Python truthiness of an optional integer id: `None` and `0` are falsy. -/
def truthyId : Option Nat → Bool
  | none => false
  | some n => n != 0

/-- Python truthiness of an optional string: `None` and `""` are falsy. -/
def truthyStr : Option String → Bool
  | none => false
  | some s => !s.isEmpty

/-- Python `str.strip()`: drop leading and trailing whitespace. -/
def pyStrip (s : String) : String :=
  ((s.toList.dropWhile Char.isWhitespace).reverse.dropWhile Char.isWhitespace).reverse.asString

instance instDecEqExcept {e a : Type} [DecidableEq e] [DecidableEq a] :
    DecidableEq (Except e a) := fun x y =>
  match x, y with
  | .error u, .error v =>
    if h : u = v then isTrue (h ▸ rfl) else isFalse (fun hh => h (Except.error.inj hh))
  | .ok u, .ok v =>
    if h : u = v then isTrue (h ▸ rfl) else isFalse (fun hh => h (Except.ok.inj hh))
  | .error _, .ok _ => isFalse (fun hh => Except.noConfusion hh)
  | .ok _, .error _ => isFalse (fun hh => Except.noConfusion hh)

/-- An account row, with the fields of `models.Account` used by the engine
(`balance` in the routers is a property alias of `current_balance`). -/
structure Account where
  id : Nat
  user_id : Nat
  name : String
  type : AccountType
  current_balance : ℤ
  currency : Option String
  linked_account_id : Option Nat
  billing_cutoff_day : Option Nat
  payment_day : Option Nat
  deriving DecidableEq, Repr

/-- `db.query(models.Account).filter(models.Account.id == account_id).first()`. -/
def queryAccountById (accounts : List Account) (accountId : Nat) : Option Account :=
  accounts.find? (fun a => a.id == accountId)

/-!
## BalanceLedger: `TransactionBalanceService`
(`src/apps/backend/app/services/transaction_service.py`)
-/

/-- `TransactionBalanceService._apply_delta`: fetch the account row by id; a
missing row is a no-op; a card-kind account has its balance force-reset to
zero; otherwise the delta is accumulated.  The update mutates the first row
whose id matches, as `query(...).first()` does. -/
def _apply_delta : List Account → Nat → ℤ → List Account
  | [], _, _ => []
  | a :: rest, accountId, delta =>
    if a.id = accountId then
      (if a.type.isCard then { a with current_balance := 0 }
       else { a with current_balance := a.current_balance + delta }) :: rest
    else a :: _apply_delta rest accountId delta

/-- Guarded call of `_apply_delta` behind Python truthiness
(`if from_account_id: self._apply_delta(from_account_id, ...)`). -/
def applyDeltaIfTruthy (accounts : List Account) (accountId : Option Nat) (delta : ℤ) :
    List Account :=
  match accountId with
  | none => accounts
  | some i => if i ≠ 0 then _apply_delta accounts i delta else accounts

/-- `TransactionBalanceService.apply_balance`: move `|amount|` out of
`from_account_id` and into `to_account_id` when present; no-op on zero
magnitude or on a truthy self-transfer. -/
def apply_balance (accounts : List Account) (from_account_id to_account_id : Option Nat)
    (amount : ℤ) : List Account :=
  let magnitude := |amount|
  if magnitude = 0 then accounts
  else if truthyId from_account_id && truthyId to_account_id &&
      from_account_id == to_account_id then accounts
  else
    let accounts := applyDeltaIfTruthy accounts from_account_id (-magnitude)
    applyDeltaIfTruthy accounts to_account_id magnitude

/-- `TransactionBalanceService.revert_single_transfer_effect`: undo a
previously applied directional transfer. -/
def revert_single_transfer_effect (accounts : List Account)
    (from_account_id to_account_id : Option Nat) (amount : ℤ) : List Account :=
  let magnitude := |amount|
  if magnitude = 0 then accounts
  else if truthyId from_account_id && truthyId to_account_id &&
      from_account_id == to_account_id then accounts
  else
    let accounts := applyDeltaIfTruthy accounts from_account_id magnitude
    applyDeltaIfTruthy accounts to_account_id (-magnitude)

/-- `TransactionBalanceService.apply_signed_delta`: compatibility shim for
legacy single-account balance updates. -/
def apply_signed_delta (accounts : List Account) (account_id : Option Nat) (delta : ℤ) :
    List Account :=
  match account_id with
  | none => accounts
  | some i =>
    if delta = 0 then accounts
    else if delta > 0 then apply_balance accounts none (some i) delta
    else apply_balance accounts (some i) none |delta|

/-- The data-model invariant of §3: card-kind accounts never carry a nonzero
stored balance. -/
def cardBalancesZero (accounts : List Account) : Prop :=
  ∀ a ∈ accounts, a.type.isCard = true → a.current_balance = 0

/-- Lookup of the balance of the first row with a given id. -/
def balanceOf (accounts : List Account) (accountId : Nat) : Option ℤ :=
  (queryAccountById accounts accountId).map Account.current_balance

/-- Two concrete deposit accounts used for the C2 witness. -/
def c2accounts : List Account :=
  [⟨1, 1, "checking", .DEPOSIT, 100, some "KRW", none, none, none⟩,
   ⟨2, 1, "savings", .DEPOSIT, 250, some "KRW", none, none, none⟩]

/-- A concrete state with a check-card account used for the C3 witness. -/
def c3accounts : List Account :=
  [⟨1, 1, "check card", .CHECK_CARD, 0, some "KRW", some 2, none, none⟩,
   ⟨2, 1, "deposit", .DEPOSIT, 500, some "KRW", none, none, none⟩]

/-!
## Calendar dates and the recurring-occurrence scheduler
(`routers._iter_occurrences`, `routers._add_month`, `routers._clamp_day`)
-/

/-- A calendar date (`datetime.date`). -/
structure PDate where
  year : Nat
  month : Nat
  day : Nat
  deriving DecidableEq, Repr

/-- Gregorian leap-year rule used by `calendar.monthrange`. -/
def isLeapYear (y : Nat) : Bool :=
  y % 4 == 0 && (y % 100 != 0 || y % 400 == 0)

/-- `calendar.monthrange(y, m)[1]`: number of days in the month. -/
def monthLength (y m : Nat) : Nat :=
  if m = 2 then (if isLeapYear y then 29 else 28)
  else if m = 4 ∨ m = 6 ∨ m = 9 ∨ m = 11 then 30
  else 31

/-- Strict lexicographic order on dates (`date < date`). -/
def PDate.ltb (a b : PDate) : Bool :=
  a.year < b.year ||
    (a.year == b.year && (a.month < b.month || (a.month == b.month && a.day < b.day)))

/-- Non-strict order on dates (`date <= date`). -/
def PDate.leb (a b : PDate) : Bool :=
  a == b || PDate.ltb a b

/-- `routers._clamp_day`: the declared day clamped to the month's last day. -/
def _clamp_day (year month day : Nat) : PDate :=
  ⟨year, month, min day (monthLength year month)⟩

/-- `routers._add_month`: month arithmetic with year carry. -/
def _add_month (year month : Nat) (delta : Int) : Nat × Nat :=
  let total : Int := (year : Int) * 12 + ((month : Int) - 1) + delta
  ((total / 12).toNat, (total % 12 + 1).toNat)

/-- The `month += 1; if month > 12: month = 1; year += 1` step of the
monthly branch of `_iter_occurrences`. -/
def stepMonth (y m : Nat) : Nat × Nat :=
  if m + 1 > 12 then (y + 1, 1) else (y, m + 1)

/-- `_build_month_candidate` inside the monthly branch of
`_iter_occurrences`: the declared day-of-month clamped into the month. -/
def buildMonthCandidate (day y m : Nat) : PDate :=
  ⟨y, m, min day (monthLength y m)⟩

/-- The `while candidate <= window_end` loop of the monthly branch,
expressed with explicit fuel (the source loop always terminates because the
candidate strictly advances one month at a time). -/
def monthlyLoop (day : Nat) (windowEnd : PDate) : Nat → Nat → Nat → List PDate
  | 0, _, _ => []
  | fuel + 1, y, m =>
    let c := buildMonthCandidate day y m
    if PDate.leb c windowEnd then
      c :: monthlyLoop day windowEnd fuel (stepMonth y m).1 (stepMonth y m).2
    else []

/-- Recurring-rule frequency enum (`models.RecurringFrequency`). -/
inductive RecurringFrequency where
  | DAILY | WEEKLY | MONTHLY | YEARLY
  deriving DecidableEq, Repr

/-- A recurring rule row (`models.RecurringRule`), with the fields used by
occurrence generation and by the create/update invariants. -/
structure RecurringRule where
  user_id : Nat
  name : String
  type : TxnType
  frequency : RecurringFrequency
  day_of_month : Option Nat
  weekday : Option Nat
  amount : Option ℤ
  currency : String
  account_id : Nat
  counter_account_id : Option Nat
  category_id : Option Nat
  start_date : Option PDate
  end_date : Option PDate
  is_active : Bool
  is_variable_amount : Bool
  deriving DecidableEq, Repr

/-- The MONTHLY branch of `routers._iter_occurrences`: intersect the query
window with the rule's validity window, start from the declared day-of-month
clamped into the starting month (advancing one month when the first candidate
precedes the window), then emit the clamped day month by month while it stays
inside the window.  The daily, weekly and yearly branches of the source
function are separate and are not needed by the claims. -/
def iterOccurrencesMonthly (rule : RecurringRule) (start end_ : PDate) : List PDate :=
  if PDate.ltb end_ start then []
  else
    let windowStart := match rule.start_date with
      | some s => if PDate.ltb start s then s else start
      | none => start
    let windowEnd := match rule.end_date with
      | some e => if PDate.ltb e end_ then e else end_
      | none => end_
    if PDate.ltb windowEnd windowStart then []
    else
      let day := match rule.day_of_month with
        | some d => if d ≠ 0 then d else windowStart.day
        | none => windowStart.day
      let y := windowStart.year
      let m := windowStart.month
      let c := buildMonthCandidate day y m
      let start2 := if PDate.ltb c windowStart then stepMonth y m else (y, m)
      monthlyLoop day windowEnd ((windowEnd.year + 2 - start2.1) * 12) start2.1 start2.2

/-- A concrete monthly rule anchored on day-of-month 31 for claim C8. -/
def c8rule : RecurringRule :=
  ⟨1, "rent", .EXPENSE, .MONTHLY, some 31, none, some 500, "KRW", 1, none,
    some 9, none, none, true, false⟩

/-!
## Recurring rule creation and update
(`schemas.RecurringRuleCreate` / `schemas.RecurringRuleUpdate` validators,
`routers.create_recurring_rule`, `routers._validate_recurring_update`,
`routers.update_recurring_rule`)
-/

/-- The `RecurringRuleCreate` request payload. -/
structure RecurringRuleCreate where
  user_id : Nat
  name : String
  type : TxnType
  frequency : RecurringFrequency
  day_of_month : Option Nat
  weekday : Option Nat
  amount : Option ℤ
  currency : String
  account_id : Nat
  counter_account_id : Option Nat
  category_id : Option Nat
  start_date : Option PDate
  end_date : Option PDate
  is_active : Bool
  is_variable_amount : Bool
  deriving DecidableEq, Repr

/-- The pydantic validators of `RecurringRuleCreate`: 3-letter currency, a
provided amount is positive (finiteness is automatic over the rationals),
day-of-month in 1..31, weekday in 0..6, and a non-variable rule must carry a
positive amount (`require_amount_when_not_variable`). -/
def recurringRuleCreateValid (p : RecurringRuleCreate) : Bool :=
  p.currency.length == 3 &&
  (match p.amount with | none => true | some a => decide (0 < a)) &&
  (match p.day_of_month with | none => true | some d => decide (1 ≤ d ∧ d ≤ 31)) &&
  (match p.weekday with | none => true | some w => decide (w ≤ 6)) &&
  (p.is_variable_amount ||
    (match p.amount with | none => false | some a => decide (0 < a)))

/-- Build the persisted rule row from an accepted creation payload
(`models.RecurringRule(**data)` with the trimmed name and, for
income/expense rules without a category, the default category id). -/
def ruleFromPayload (defaultCategoryId : Nat) (p : RecurringRuleCreate) : RecurringRule :=
  { user_id := p.user_id
    name := pyStrip p.name
    type := p.type
    frequency := p.frequency
    day_of_month := p.day_of_month
    weekday := p.weekday
    amount := p.amount
    currency := p.currency
    account_id := p.account_id
    counter_account_id := p.counter_account_id
    category_id :=
      if (p.type = .INCOME ∨ p.type = .EXPENSE) && p.category_id = none then
        some defaultCategoryId
      else p.category_id
    start_date := p.start_date
    end_date := p.end_date
    is_active := p.is_active
    is_variable_amount := p.is_variable_amount }

/-- `routers.create_recurring_rule`.  The result is `.ok (some rule)` when a
new rule row is persisted, `.ok none` when an existing rule with the same
user and name is returned unchanged (the idempotent fast path persists
nothing), and `.error` when the payload is rejected before any mutation. -/
def create_recurring_rule (defaultCategoryId : Nat) (rules : List RecurringRule)
    (p : RecurringRuleCreate) : Except String (Option RecurringRule) :=
  if recurringRuleCreateValid p = false then .error "schema validation failed"
  else if p.type = .TRANSFER then
    if truthyId p.counter_account_id = false then .error "TRANSFER requires counter_account_id"
    else if p.category_id ≠ none then .error "TRANSFER must not have category"
    else if p.is_variable_amount then .error "Transfers cannot use variable amounts"
    else if (pyStrip p.name).isEmpty then .error "Recurring rule name must not be empty"
    else if (rules.find? (fun r => r.user_id == p.user_id && r.name == (pyStrip p.name))).isSome
      then .ok none
    else .ok (some (ruleFromPayload defaultCategoryId p))
  else
    if p.amount = none ∧ p.is_variable_amount = false then
      .error "amount is required unless variable amount is enabled"
    else if (pyStrip p.name).isEmpty then .error "Recurring rule name must not be empty"
    else if (rules.find? (fun r => r.user_id == p.user_id && r.name == (pyStrip p.name))).isSome
      then .ok none
    else .ok (some (ruleFromPayload defaultCategoryId p))

/-- The `RecurringRuleUpdate` request payload with `exclude_unset` made
explicit: the outer `Option` is field presence in the request, the inner one
is an explicit JSON null. -/
structure RecurringRuleUpdate where
  name : Option (Option String)
  frequency : Option (Option RecurringFrequency)
  day_of_month : Option (Option Nat)
  weekday : Option (Option Nat)
  amount : Option (Option ℤ)
  currency : Option (Option String)
  account_id : Option (Option Nat)
  counter_account_id : Option (Option Nat)
  category_id : Option (Option Nat)
  start_date : Option (Option PDate)
  end_date : Option (Option PDate)
  is_active : Option (Option Bool)
  is_variable_amount : Option (Option Bool)
  deriving DecidableEq, Repr

/-- Attribute view of an `exclude_unset` field: unset and explicit null both
read back as `None`. -/
def attrOf {α : Type} (x : Option (Option α)) : Option α := x.getD none

/-- The pydantic validators of `RecurringRuleUpdate`. -/
def recurringRuleUpdateValid (u : RecurringRuleUpdate) : Bool :=
  (match attrOf u.currency with | none => true | some c => c.length == 3) &&
  (match attrOf u.amount with | none => true | some a => decide (0 < a)) &&
  (match attrOf u.day_of_month with | none => true | some d => decide (1 ≤ d ∧ d ≤ 31)) &&
  (match attrOf u.weekday with | none => true | some w => decide (w ≤ 6)) &&
  !(attrOf u.is_variable_amount == some false && attrOf u.amount == none)

/-- `changes = payload.model_dump(exclude_unset=True)` is empty. -/
def updateEmpty (u : RecurringRuleUpdate) : Bool :=
  u.name == none && u.frequency == none && u.day_of_month == none &&
  u.weekday == none && u.amount == none && u.currency == none &&
  u.account_id == none && u.counter_account_id == none && u.category_id == none &&
  u.start_date == none && u.end_date == none && u.is_active == none &&
  u.is_variable_amount == none

/-- `changes.get(key, currentValue)`. -/
def changesGet {α : Type} (field : Option (Option α)) (current : Option α) : Option α :=
  match field with
  | none => current
  | some v => v

/-- `routers._validate_recurring_update`. -/
def _validate_recurring_update (rule : RecurringRule) (u : RecurringRuleUpdate) :
    Except String Unit :=
  if rule.type = .TRANSFER then
    if truthyId (changesGet u.counter_account_id rule.counter_account_id) = false then
      .error "TRANSFER requires counter_account_id"
    else if changesGet u.category_id rule.category_id ≠ none then
      .error "TRANSFER must not have category"
    else checkAmount rule u
  else
    match u.counter_account_id with
    | some v =>
      if v ≠ none ∧ v ≠ rule.counter_account_id then
        .error "counter_account_id is only allowed for transfers"
      else checkAmount rule u
    | none => checkAmount rule u
where
  checkAmount (rule : RecurringRule) (u : RecurringRuleUpdate) : Except String Unit :=
    if changesGet u.is_variable_amount (some rule.is_variable_amount) = some true then
      if rule.type = .TRANSFER then .error "Transfers cannot use variable amounts" else .ok ()
    else
      match changesGet u.amount rule.amount with
      | none => .error "amount must be positive when variable amount is disabled"
      | some a =>
        if a ≤ 0 then .error "amount must be positive when variable amount is disabled"
        else .ok ()

/-- An explicit null written to a non-nullable column of the rule (name,
frequency, currency, account_id, is_active, is_variable_amount). -/
def notNullViolated (u : RecurringRuleUpdate) : Bool :=
  u.name == some none || u.frequency == some none || u.currency == some none ||
  u.account_id == some none || u.is_active == some none ||
  u.is_variable_amount == some none

/-- A required (non-nullable) field after `setattr`: the set value when the
field appears in the change set, the current value otherwise. -/
def pickReq {α : Type} (field : Option (Option α)) (cur : α) : α :=
  match field with
  | some (some v) => v
  | _ => cur

/-- Apply the accepted changes to the rule (`setattr` loop).  An explicit
null written to a non-nullable column is rejected at commit by the database
NOT NULL constraint; that failure rolls the unit of work back, so the model
reports it as an error with nothing persisted. -/
def applyRuleChanges (rule : RecurringRule) (u : RecurringRuleUpdate) :
    Except String RecurringRule :=
  if notNullViolated u then .error "NOT NULL constraint failed"
  else .ok { rule with
    name := pickReq u.name rule.name
    frequency := pickReq u.frequency rule.frequency
    currency := pickReq u.currency rule.currency
    account_id := pickReq u.account_id rule.account_id
    is_active := pickReq u.is_active rule.is_active
    is_variable_amount := pickReq u.is_variable_amount rule.is_variable_amount
    day_of_month := changesGet u.day_of_month rule.day_of_month
    weekday := changesGet u.weekday rule.weekday
    amount := changesGet u.amount rule.amount
    counter_account_id := changesGet u.counter_account_id rule.counter_account_id
    category_id := changesGet u.category_id rule.category_id
    start_date := changesGet u.start_date rule.start_date
    end_date := changesGet u.end_date rule.end_date }

/-- The category fallback of `update_recurring_rule`: for income/expense
rules, a change set whose category is absent or null is filled with the
default category id. -/
def withCategoryDefault (defaultCategoryId : Nat) (rule : RecurringRule)
    (u : RecurringRuleUpdate) : RecurringRuleUpdate :=
  if (rule.type = .INCOME ∨ rule.type = .EXPENSE) &&
      changesGet u.category_id none = none then
    { u with category_id := some (some defaultCategoryId) }
  else u

/-- `routers.update_recurring_rule` on a found rule: empty change sets
return the rule unmodified; otherwise the changes are validated and applied
(for income/expense rules a missing or null category falls back to the
default category id). -/
def update_recurring_rule (defaultCategoryId : Nat) (rule : RecurringRule)
    (u : RecurringRuleUpdate) : Except String RecurringRule :=
  if recurringRuleUpdateValid u = false then .error "schema validation failed"
  else if updateEmpty u then .ok rule
  else
    match _validate_recurring_update rule u with
    | .error e => .error e
    | .ok () => applyRuleChanges rule (withCategoryDefault defaultCategoryId rule u)

/-- The data-model invariant of §3 for recurring rules: a non-variable rule
has a positive fixed amount; a variable-amount rule is not of transfer
kind. -/
def ruleInvariant (r : RecurringRule) : Prop :=
  (r.is_variable_amount = false → ∃ a, r.amount = some a ∧ 0 < a) ∧
  (r.is_variable_amount = true → r.type ≠ .TRANSFER)

/-- Concrete payloads for the C9 witness: a valid expense rule is created
and satisfies the invariant; a variable transfer rule is rejected. -/
def c9goodPayload : RecurringRuleCreate :=
  ⟨1, "salary", .INCOME, .MONTHLY, some 25, none, some 3000, "KRW", 1, none,
    none, none, none, true, false⟩

def c9badPayload : RecurringRuleCreate :=
  ⟨1, "bad", .TRANSFER, .MONTHLY, some 25, none, none, "KRW", 1, some 2,
    none, none, none, true, true⟩

/-!
## Transactions, credit-card statements and settlement
(`models.Transaction`, `models.CreditCardStatement`,
`routers._recalculate_statement_total`, `routers.settle_credit_card_statement`)
-/

/-- A clock time (`datetime.time`), kept as hour/minute/second. -/
structure PTime where
  hour : Nat
  minute : Nat
  second : Nat
  deriving DecidableEq, Repr

/-- A persisted transaction row (`models.Transaction`).  The directional
columns `from_account_id`/`to_account_id` are primary; the legacy
`account_id`/`counter_account_id` views are the hybrid properties below. -/
structure Txn where
  id : Nat
  user_id : Nat
  occurred_at : PDate
  occurred_time : Option PTime
  type : TxnType
  group_id : Option Nat
  from_account_id : Option Nat
  to_account_id : Option Nat
  card_account_id : Option Nat
  category_id : Option Nat
  amount : ℤ
  currency : String
  memo : Option String
  payee_id : Option Nat
  external_id : Option String
  imported_source_id : Option String
  is_card_charge : Bool
  is_balance_neutral : Bool
  is_auto_transfer_match : Bool
  exclude_from_reports : Bool
  linked_transaction_id : Option Nat
  status : TransactionStatus
  billing_cycle_id : Option Nat
  deriving DecidableEq, Repr

/-- Hybrid property `Transaction.account_id`: the primary side by kind. -/
def Txn.account_id (t : Txn) : Option Nat :=
  if t.type = .INCOME then t.to_account_id else t.from_account_id

/-- Hybrid property `Transaction.counter_account_id`. -/
def Txn.counter_account_id (t : Txn) : Option Nat :=
  if t.type = .INCOME then t.from_account_id else t.to_account_id

/-- A credit-card statement row (`models.CreditCardStatement`). -/
structure CreditCardStatement where
  id : Nat
  user_id : Nat
  account_id : Nat
  period_start : PDate
  period_end : PDate
  due_date : PDate
  total_amount : ℤ
  status : CreditCardStatementStatus
  settlement_transaction_id : Option Nat
  deriving DecidableEq, Repr

/-- `routers._apply_balance`: the module-level balance mutator used by the
routers.  Unlike the service entry points it is a no-op on a `None` id or a
zero delta, and it likewise pins card-kind balances to zero. -/
def routers_apply_balance (accounts : List Account) (account_id : Option Nat) (delta : ℤ) :
    List Account :=
  match account_id with
  | none => accounts
  | some i =>
    if delta = 0 then accounts
    else _routers_set_balance accounts i delta
where
  _routers_set_balance : List Account → Nat → ℤ → List Account
    | [], _, _ => []
    | a :: rest, i, d =>
      if a.id = i then
        (if a.type = .CHECK_CARD ∨ a.type = .CREDIT_CARD then { a with current_balance := 0 }
         else { a with current_balance := a.current_balance + d }) :: rest
      else a :: _routers_set_balance rest i d

/-- `routers._recalculate_statement_total`: sum the signed amounts of the
pending-payment transactions referencing the cycle, negate, floor at zero. -/
def _recalculate_statement_total (txns : List Txn) (stmt : CreditCardStatement) : ℤ :=
  let s := (txns.filter (fun t => t.billing_cycle_id == some stmt.id &&
      t.status == TransactionStatus.PENDING_PAYMENT)).foldl (fun acc t => acc + t.amount) 0
  let total := -s
  if total < 0 then 0 else total

/-- Update the first statement row with the given id. -/
def updateStatement (statements : List CreditCardStatement) (i : Nat)
    (f : CreditCardStatement → CreditCardStatement) : List CreditCardStatement :=
  match statements with
  | [] => []
  | s :: rest => if s.id = i then f s :: rest else s :: updateStatement rest i f

/-- Update the first transaction row with the given id. -/
def updateTxn (txns : List Txn) (i : Nat) (f : Txn → Txn) : List Txn :=
  match txns with
  | [] => []
  | t :: rest => if t.id = i then f t :: rest else t :: updateTxn rest i f

/-- The bulk `UPDATE ... SET status = CLEARED` flipping every
pending-payment transaction of the cycle. -/
def flipPendingToCleared (txns : List Txn) (cycleId : Nat) : List Txn :=
  txns.map (fun t =>
    if t.billing_cycle_id == some cycleId && t.status == TransactionStatus.PENDING_PAYMENT
    then { t with status := TransactionStatus.CLEARED } else t)

/-- A category row and its group (`models.Category`, `models.CategoryGroup`);
only the id and the group's I/E/T letter matter to the engine. -/
structure Category where
  id : Nat
  group_id : Nat
  deriving DecidableEq, Repr

structure CategoryGroup where
  id : Nat
  type : String
  deriving DecidableEq, Repr

/-- The database slice consulted by settlement. -/
structure SettleDB where
  accounts : List Account
  txns : List Txn
  statements : List CreditCardStatement
  categories : List Category
  categoryGroups : List CategoryGroup
  baseCurrencies : List (Nat × String)
  nextTxnId : Nat
  deriving DecidableEq, Repr

/-- `CreditCardStatementSettleRequest`. -/
structure SettlePayload where
  occurred_at : Option PDate
  category_id : Option Nat
  memo : Option String
  create_card_entry : Bool
  deriving DecidableEq, Repr

/-- Zero-padded two-digit rendering for ISO dates. -/
def pad2 (n : Nat) : String :=
  if n < 10 then "0" ++ toString n else toString n

/-- `date.isoformat()`. -/
def pdateIso (d : PDate) : String :=
  toString d.year ++ "-" ++ pad2 d.month ++ "-" ++ pad2 d.day

/-- `routers.settle_credit_card_statement`.  Errors carry the HTTP status
code and detail of the raised `HTTPException`; an error aborts the unit of
work, so no state change survives (the returned state exists only on
success). -/
def settle_credit_card_statement (db : SettleDB) (statement_id : Nat)
    (payload : SettlePayload) : Except (Nat × String) SettleDB :=
  match db.statements.find? (fun s => s.id == statement_id) with
  | none => .error (404, "Statement not found")
  | some statement =>
    if statement.status = .PAID then .error (409, "Statement already settled")
    else
      match queryAccountById db.accounts statement.account_id with
      | none => .error (500, "statement.account missing")
      | some account =>
        if account.type ≠ .CREDIT_CARD then
          .error (400, "Statement account is not a credit card")
        else if truthyId account.linked_account_id = false then
          .error (400, "Credit card requires linked deposit for settlement")
        else
          match queryAccountById db.accounts (account.linked_account_id.getD 0) with
          | none => .error (400, "Linked deposit account not found")
          | some linked_account =>
            if _recalculate_statement_total db.txns statement ≤ 0 then
              .error (400, "No pending amount to settle")
            else
              let statement1 := { statement with
                total_amount := _recalculate_statement_total db.txns statement }
              let outstanding := statement1.total_amount
              let occurred_at := payload.occurred_at.getD statement1.due_date
              match settleCategoryOk db payload.category_id with
              | false => .error (400, "Invalid settlement category")
              | true =>
                let memo := payload.memo.getD
                  (account.name ++ " " ++ pdateIso statement1.period_end ++ " 결제")
                match settlementCurrency db account linked_account with
                | none => .error (400, "Unable to determine settlement currency")
                | some settlement_currency =>
                  if currencyMismatch account linked_account then
                    .error (400, "Credit card and linked deposit currency mismatch")
                  else
                    let card_currency := account.currency.getD settlement_currency
                    let settlement_tx : Txn :=
                      { id := db.nextTxnId
                        user_id := account.user_id
                        occurred_at := occurred_at
                        occurred_time := none
                        type := .SETTLEMENT
                        group_id := none
                        from_account_id := some linked_account.id
                        to_account_id := some account.id
                        card_account_id := some account.id
                        category_id := payload.category_id
                        amount := -outstanding
                        currency := settlement_currency
                        memo := some memo
                        payee_id := none
                        external_id := none
                        imported_source_id := none
                        is_card_charge := false
                        is_balance_neutral := false
                        is_auto_transfer_match := false
                        exclude_from_reports := false
                        linked_transaction_id := none
                        status := .CLEARED
                        billing_cycle_id := some statement1.id }
                    let accounts1 := routers_apply_balance db.accounts
                      (some linked_account.id) settlement_tx.amount
                    let txns1 := db.txns ++ [settlement_tx]
                    let cardId := db.nextTxnId + 1
                    let txns2 :=
                      if payload.create_card_entry then
                        let card_entry : Txn :=
                          { settlement_tx with
                            id := cardId
                            from_account_id := some account.id
                            to_account_id := some linked_account.id
                            card_account_id := some account.id
                            category_id := none
                            amount := outstanding
                            currency := card_currency
                            is_balance_neutral := true
                            linked_transaction_id := some settlement_tx.id }
                        updateTxn (txns1 ++ [card_entry]) settlement_tx.id
                          (fun t => { t with linked_transaction_id := some cardId })
                      else txns1
                    let txns3 := flipPendingToCleared txns2 statement1.id
                    let statements1 := updateStatement db.statements statement1.id
                      (fun s =>
                        let s := { s with
                          status := CreditCardStatementStatus.PAID
                          settlement_transaction_id := some settlement_tx.id
                          total_amount := 0 }
                        { s with total_amount := _recalculate_statement_total txns3 s })
                    .ok { db with
                      accounts := accounts1
                      txns := txns3
                      statements := statements1
                      nextTxnId := db.nextTxnId + (if payload.create_card_entry then 2 else 1) }
where
  settleCategoryOk (db : SettleDB) (category_id : Option Nat) : Bool :=
    match category_id with
    | none => true
    | some cid =>
      match db.categories.find? (fun c => c.id == cid) with
      | none => false
      | some cat =>
        match db.categoryGroups.find? (fun g => g.id == cat.group_id) with
        | none => false
        | some g => g.type == "E"
  settlementCurrency (db : SettleDB) (account linked_account : Account) : Option String :=
    match linked_account.currency.orElse (fun _ => account.currency) with
    | some c => some c
    | none =>
      match db.baseCurrencies.find? (fun p => p.1 == account.user_id) with
      | some p => some p.2
      | none => none
  currencyMismatch (account linked_account : Account) : Bool :=
    match account.currency, linked_account.currency with
    | some a, some b => a != b
    | _, _ => false

/-- A concrete pending statement with one pending charge of 45000 for the
C7 witness. -/
def c7db : SettleDB :=
  { accounts :=
      [⟨1, 1, "card", .CREDIT_CARD, 0, some "KRW", some 2, some 20, some 5⟩,
       ⟨2, 1, "deposit", .DEPOSIT, 100000, some "KRW", none, none, none⟩]
    txns :=
      [⟨1, 1, ⟨2025, 1, 10⟩, none, .EXPENSE, none, some 1, none, some 1, none,
        -45000, "KRW", none, none, none, none, true, true, false, false, none,
        .PENDING_PAYMENT, some 1⟩]
    statements := [⟨1, 1, 1, ⟨2024, 12, 21⟩, ⟨2025, 1, 20⟩, ⟨2025, 2, 5⟩, 45000,
      .PENDING, none⟩]
    categories := []
    categoryGroups := []
    baseCurrencies := []
    nextTxnId := 2 }

def c7payload : SettlePayload := ⟨none, none, none, false⟩

/-- The state after the first (successful) settlement of the witness. -/
def c7dbAfter : SettleDB :=
  (settle_credit_card_statement c7db 1 c7payload).toOption.getD c7db

/-!
## Account normalization and the transfer-pairing service
(`app/utils/normalization.py`, `schemas.TransactionCreate`,
`services/transfer_pairing_service.py`)
-/

/-- A word character of the `\W`-removal in `normalize_account_token`:
ASCII alphanumerics, underscore, and non-ASCII characters (the repository's
Korean account names are all Unicode word characters; NFKC and casefold are
the identity on the ASCII/Hangul domain modelled here). -/
def isWordChar (c : Char) : Bool :=
  c.isAlphanum || c == '_' || decide (c.val ≥ 128)

/-- `normalize_account_token`: lower-case and strip non-word characters;
falsy input gives the empty string. -/
def normalize_account_token (value : Option String) : String :=
  match value with
  | none => ""
  | some s =>
    if s.isEmpty then ""
    else ((s.toList.map Char.toLower).filter isWordChar).asString

/-- `normalize_account_ref`: prefer `id:{id}` when the id is present (`is
not None`, so id 0 still yields `id:0`); otherwise `name:{normalized}` when
the normalized name is nonempty; otherwise the empty string. -/
def normalize_account_ref (account_id : Option Nat) (account_name : Option String) :
    String :=
  match account_id with
  | some i => "id:" ++ toString i
  | none =>
    match account_name with
    | some nm =>
      if nm.isEmpty then ""
      else
        let normalized := normalize_account_token (some nm)
        if normalized.isEmpty then "" else "name:" ++ normalized
    | none => ""

/-- `transfer_flow` values (`Literal["OUT", "IN"]`). -/
inductive Flow where
  | OUT | IN
  deriving DecidableEq, Repr

/-- The `schemas.TransactionCreate` request payload after pydantic
validation.  The three `*_set` flags record whether the corresponding key
was present in the validated values (pydantic `exclude_unset` state), which
decides whether the legacy key mapping in `models.Transaction.__init__`
applies when the row is built. -/
structure TransactionCreate where
  user_id : Nat
  occurred_at : PDate
  occurred_time : Option PTime
  type : TxnType
  from_account_id : Option Nat
  from_account_name : Option String
  to_account_id : Option Nat
  to_account_name : Option String
  card_account_id : Option Nat
  category_id : Option Nat
  category_group_name : Option String
  category_name : Option String
  amount : ℤ
  currency : String
  memo : Option String
  payee_id : Option Nat
  external_id : Option String
  imported_source_id : Option String
  transfer_flow : Option Flow
  exclude_from_reports : Bool
  is_card_charge : Bool
  is_balance_neutral : Bool
  billing_cycle_id : Option Nat
  from_id_set : Bool
  to_id_set : Bool
  card_id_set : Bool
  deriving DecidableEq, Repr

/-- Computed field `account_id`: the primary side by type. -/
def TransactionCreate.account_id (t : TransactionCreate) : Option Nat :=
  if t.type = .INCOME then t.to_account_id else t.from_account_id

/-- Computed field `account_name`. -/
def TransactionCreate.account_name (t : TransactionCreate) : Option String :=
  if t.type = .INCOME then t.to_account_name else t.from_account_name

/-- Computed field `counter_account_id`. -/
def TransactionCreate.counter_account_id (t : TransactionCreate) : Option Nat :=
  if t.type = .INCOME then t.from_account_id else t.to_account_id

/-- Computed field `counter_account_name`. -/
def TransactionCreate.counter_account_name (t : TransactionCreate) : Option String :=
  if t.type = .INCOME then t.from_account_name else t.to_account_name

/-- Computed field `card_id`. -/
def TransactionCreate.card_id (t : TransactionCreate) : Option Nat :=
  t.card_account_id

/-- The `model_validator` checks of `TransactionCreate` (the field
validators add the 3-letter currency and finite amount; finiteness is
automatic over the integers). -/
def validateTC (t : TransactionCreate) : Bool :=
  (t.currency.length == 3) &&
  (truthyId t.from_account_id || truthyStr t.from_account_name ||
    truthyId t.to_account_id || truthyStr t.to_account_name) &&
  (!(t.type == .EXPENSE || t.type == .SETTLEMENT) ||
    (truthyId t.from_account_id || truthyStr t.from_account_name)) &&
  (!(t.type == .INCOME || t.type == .SETTLEMENT) ||
    (truthyId t.to_account_id || truthyStr t.to_account_name)) &&
  (!(t.type == .TRANSFER) ||
    ((!(truthyId t.from_account_id && truthyId t.to_account_id) ||
        t.from_account_id != t.to_account_id) &&
      (truthyStr t.category_group_name == truthyStr t.category_name))) &&
  (!(t.type == .INCOME || t.type == .EXPENSE) ||
    (truthyId t.category_id ||
      (truthyStr t.category_group_name && truthyStr t.category_name))) &&
  (!(t.type == .SETTLEMENT) ||
    (t.transfer_flow == none && t.billing_cycle_id != none &&
      t.card_account_id != none && !t.is_card_charge)) &&
  (!t.is_card_charge || (t.type == .EXPENSE && t.card_account_id != none))

/-- A `model_dump()` of a `TransactionCreate`: every schema field plus the
computed legacy keys (`account_id`, `account_name`, `counter_account_id`,
`counter_account_name`, `card_id`).  A popped legacy key is represented by
`none` (lookups of a missing key return `None`). -/
structure TCBase where
  user_id : Nat
  occurred_at : PDate
  occurred_time : Option PTime
  type : TxnType
  from_account_id : Option Nat
  from_account_name : Option String
  to_account_id : Option Nat
  to_account_name : Option String
  card_account_id : Option Nat
  category_id : Option Nat
  category_group_name : Option String
  category_name : Option String
  amount : ℤ
  currency : String
  memo : Option String
  payee_id : Option Nat
  external_id : Option String
  imported_source_id : Option String
  transfer_flow : Option Flow
  exclude_from_reports : Bool
  is_card_charge : Bool
  is_balance_neutral : Bool
  billing_cycle_id : Option Nat
  account_id : Option Nat
  account_name : Option String
  counter_account_id : Option Nat
  counter_account_name : Option String
  card_id : Option Nat
  deriving DecidableEq, Repr

/-- `t.model_dump()`. -/
def dumpTC (t : TransactionCreate) : TCBase :=
  { user_id := t.user_id
    occurred_at := t.occurred_at
    occurred_time := t.occurred_time
    type := t.type
    from_account_id := t.from_account_id
    from_account_name := t.from_account_name
    to_account_id := t.to_account_id
    to_account_name := t.to_account_name
    card_account_id := t.card_account_id
    category_id := t.category_id
    category_group_name := t.category_group_name
    category_name := t.category_name
    amount := t.amount
    currency := t.currency
    memo := t.memo
    payee_id := t.payee_id
    external_id := t.external_id
    imported_source_id := t.imported_source_id
    transfer_flow := t.transfer_flow
    exclude_from_reports := t.exclude_from_reports
    is_card_charge := t.is_card_charge
    is_balance_neutral := t.is_balance_neutral
    billing_cycle_id := t.billing_cycle_id
    account_id := t.account_id
    account_name := t.account_name
    counter_account_id := t.counter_account_id
    counter_account_name := t.counter_account_name
    card_id := t.card_id }

/-- `TransactionCreate(**base)`: the `_pre_normalize_legacy` model validator
maps the legacy keys into the directional ones (in source order: card, then
account id, then counter id, then the two name mappings), the legacy keys
are dropped, and the resulting record is validated. -/
def reconstructTC (b : TCBase) : Except Unit TransactionCreate :=
  let card_account_id :=
    if b.card_id ≠ none ∧ b.card_account_id = none then b.card_id else b.card_account_id
  let (from1, to1) :=
    if b.account_id ≠ none ∧ truthyId b.from_account_id = false ∧
        truthyId b.to_account_id = false then
      if b.type = .INCOME ∨ b.type = .SETTLEMENT then (b.from_account_id, b.account_id)
      else (b.account_id, b.to_account_id)
    else (b.from_account_id, b.to_account_id)
  let to2 :=
    if b.counter_account_id ≠ none ∧ truthyId to1 = false then b.counter_account_id
    else to1
  let (fromName1, toName1) :=
    if truthyStr b.account_name ∧ truthyStr b.from_account_name = false ∧
        truthyStr b.to_account_name = false then
      if b.type = .INCOME ∨ b.type = .SETTLEMENT then (b.from_account_name, b.account_name)
      else (b.account_name, b.to_account_name)
    else (b.from_account_name, b.to_account_name)
  let toName2 :=
    if truthyStr b.counter_account_name ∧ truthyStr toName1 = false then
      b.counter_account_name
    else toName1
  let t : TransactionCreate :=
    { user_id := b.user_id
      occurred_at := b.occurred_at
      occurred_time := b.occurred_time
      type := b.type
      from_account_id := from1
      from_account_name := fromName1
      to_account_id := to2
      to_account_name := toName2
      card_account_id := card_account_id
      category_id := b.category_id
      category_group_name := b.category_group_name
      category_name := b.category_name
      amount := b.amount
      currency := b.currency
      memo := b.memo
      payee_id := b.payee_id
      external_id := b.external_id
      imported_source_id := b.imported_source_id
      transfer_flow := b.transfer_flow
      exclude_from_reports := b.exclude_from_reports
      is_card_charge := b.is_card_charge
      is_balance_neutral := b.is_balance_neutral
      billing_cycle_id := b.billing_cycle_id
      from_id_set := true
      to_id_set := true
      card_id_set := true }
  if validateTC t then .ok t else .error ()

/-- `_build_pair` memo merge: take the incoming leg's memo when the base has
none. -/
def merge_memo (base : TCBase) (in_entry : TransactionCreate) : TCBase :=
  if !truthyStr base.memo && truthyStr in_entry.memo then
    { base with memo := in_entry.memo }
  else base

/-- `_build_pair` category-id merge. -/
def merge_category_id (base : TCBase) (in_entry : TransactionCreate) : TCBase :=
  if !truthyId base.category_id && truthyId in_entry.category_id then
    { base with category_id := in_entry.category_id }
  else base

/-- `_build_pair` category group/name merge. -/
def merge_category_names (base : TCBase) (in_entry : TransactionCreate) : TCBase :=
  if !truthyId base.category_id &&
      !(truthyStr base.category_group_name && truthyStr base.category_name) &&
      truthyStr in_entry.category_group_name && truthyStr in_entry.category_name then
    { base with
      category_group_name := in_entry.category_group_name
      category_name := in_entry.category_name }
  else base

/-- The three metadata merges of `_build_pair`, in source order. -/
def merge_all (base : TCBase) (in_entry : TransactionCreate) : TCBase :=
  merge_category_names (merge_category_id (merge_memo base in_entry) in_entry) in_entry

/-- `TransferPairingService._build_pair`: combine an outgoing and an
incoming leg into the canonical transfer record. -/
def _build_pair (out_entry in_entry : TransactionCreate) : Except Unit TransactionCreate :=
  let base1 := { dumpTC out_entry with amount := -|out_entry.amount| }
  let source_account_key :=
    normalize_account_ref out_entry.account_id out_entry.account_name
  let find_counter_id := fun (candidate : TransactionCreate) =>
    if truthyId candidate.account_id &&
        (normalize_account_ref candidate.account_id none != source_account_key) then
      candidate.account_id
    else if truthyId candidate.counter_account_id &&
        (normalize_account_ref candidate.counter_account_id none != source_account_key) then
      candidate.counter_account_id
    else none
  let counter_id :=
    match find_counter_id in_entry with
    | some c => some c
    | none => find_counter_id out_entry
  let base2 :=
    match counter_id with
    | some c => { base1 with counter_account_id := some c, counter_account_name := none }
    | none =>
      let source_token := normalize_account_token base1.account_name
      let find_counter_name := fun (candidate : TransactionCreate) =>
        match candidate.account_name with
        | some nm =>
          if !nm.isEmpty && (normalize_account_token (some nm) != source_token) then some nm
          else
            match candidate.counter_account_name with
            | some cn =>
              if !cn.isEmpty && (normalize_account_token (some cn) != source_token)
              then some cn else none
            | none => none
        | none =>
          match candidate.counter_account_name with
          | some cn =>
            if !cn.isEmpty && (normalize_account_token (some cn) != source_token)
            then some cn else none
          | none => none
      let counter_name :=
        match find_counter_name in_entry with
        | some nm => nm
        | none =>
          match find_counter_name out_entry with
          | some nm => nm
          | none =>
            match out_entry.counter_account_name with
            | some cn =>
              if !cn.isEmpty then cn
              else match base1.account_name with
                | some an => an ++ " (상대)"
                | none => "None (상대)"
            | none =>
              match base1.account_name with
              | some an => an ++ " (상대)"
              | none => "None (상대)"
      { base1 with counter_account_name := some counter_name }
  reconstructTC { merge_all base2 in_entry with transfer_flow := some .OUT }

/-- Python string `<=` used by the deterministic fallback of the direction
decision. -/
def pyStrLe (a b : String) : Bool :=
  a == b || a < b

/-- `TransferPairingService._decide_pair_direction`: the direction-decision
priority chain (amount signs, flow hints, account/counter symmetry, counter
presence, lexicographic fallback). -/
def _decide_pair_direction (first second : TransactionCreate) :
    TransactionCreate × TransactionCreate :=
  if first.amount < 0 ∧ second.amount > 0 then (first, second)
  else if second.amount < 0 ∧ first.amount > 0 then (second, first)
  else if first.transfer_flow = some .OUT ∧ second.transfer_flow = some .IN then
    (first, second)
  else if second.transfer_flow = some .OUT ∧ first.transfer_flow = some .IN then
    (second, first)
  else if first.transfer_flow = some .OUT ∧ second.transfer_flow ≠ some .OUT then
    (first, second)
  else if second.transfer_flow = some .OUT ∧ first.transfer_flow ≠ some .OUT then
    (second, first)
  else if first.transfer_flow = some .IN ∧ second.transfer_flow ≠ some .IN then
    (second, first)
  else if second.transfer_flow = some .IN ∧ first.transfer_flow ≠ some .IN then
    (first, second)
  else
    let first_account := normalize_account_ref first.account_id first.account_name
    let second_account := normalize_account_ref second.account_id second.account_name
    let first_counter :=
      normalize_account_ref first.counter_account_id first.counter_account_name
    let second_counter :=
      normalize_account_ref second.counter_account_id second.counter_account_name
    if !first_counter.isEmpty && (first_counter == second_account) then (first, second)
    else if !second_counter.isEmpty && (second_counter == first_account) then
      (second, first)
    else if !first_counter.isEmpty && second_counter.isEmpty then (first, second)
    else if !second_counter.isEmpty && first_counter.isEmpty then (second, first)
    else if pyStrLe first_account second_account then (first, second)
    else (second, first)

/-- `TransferPairingService._pair_two_entries`: the two-candidate fast path
of `pair_transfers`; a combine failure sends both entries to the leftovers. -/
def _pair_two_entries (e1 e2 : TransactionCreate) :
    List (TransactionCreate × Bool) × List TransactionCreate :=
  let (primary, counterpart) := _decide_pair_direction e1 e2
  match _build_pair primary counterpart with
  | .ok combined => ([(combined, true)], [])
  | .error _ => ([], [e1, e2])

/-- The outgoing leg of the same-account pairing scenario: account id 10,
amount -50000, flow OUT, and no counter identity of any kind. -/
def c6out : TransactionCreate :=
  { user_id := 1
    occurred_at := ⟨2025, 1, 15⟩
    occurred_time := none
    type := .TRANSFER
    from_account_id := some 10
    from_account_name := some "Shinhan"
    to_account_id := none
    to_account_name := none
    card_account_id := none
    category_id := none
    category_group_name := none
    category_name := none
    amount := -50000
    currency := "KRW"
    memo := none
    payee_id := none
    external_id := none
    imported_source_id := none
    transfer_flow := some .OUT
    exclude_from_reports := false
    is_card_charge := false
    is_balance_neutral := false
    billing_cycle_id := none
    from_id_set := true
    to_id_set := false
    card_id_set := false }

/-- The incoming leg of the same-account pairing scenario: the same account
id 10 and account name, amount +50000, flow IN, no counter identity. -/
def c6in : TransactionCreate :=
  { c6out with amount := 50000, transfer_flow := some .IN }

/-!
## The transfer branches of `create_transaction` (`app/routers.py`)
-/

/-- What a transfer branch of `create_transaction` persists and applies:
the added rows (in `db.add` order), the balance-delta journal (the
`_apply_balance` calls in order), and the account table after applying that
journal. -/
structure CreateTxnResult where
  rows : List Txn
  journal : List (Nat × ℤ)
  accounts : List Account
  deriving DecidableEq, Repr

/-- Apply a balance-delta journal through `routers._apply_balance` in
order. -/
def apply_journal (accounts : List Account) (journal : List (Nat × ℤ)) :
    List Account :=
  journal.foldl (fun accs d => routers_apply_balance accs (some d.1) d.2) accounts

/-- `routers._apply_single_transfer_effect` as a delta journal: the signed
amount on the source account, and the opposite delta on the counter account
when it is provided and different from the source. -/
def single_transfer_deltas (account_id : Nat) (counter_account_id : Option Nat)
    (amount : ℤ) : List (Nat × ℤ) :=
  (account_id, amount) ::
    (match counter_account_id with
     | some c => if c ≠ 0 ∧ c ≠ account_id then [(c, -amount)] else []
     | none => [])

/-- The `auto_transfer_match` branch of the TRANSFER section of
`create_transaction`: requires a counter account, persists ONE canonical
row whose amount is signed by the flow direction (negative for OUT), and
applies the single-row transfer effect on the two accounts.  `base` is the
row `models.Transaction(**data)` built from the unmodified column data; the
branch's overrides are applied on top of it. -/
def create_transfer_auto (accounts : List Account) (base : Txn) (account_id : Nat)
    (counter_account_id : Option Nat) (flow : Option Flow) (amount : ℤ) :
    Except (Nat × String) CreateTxnResult :=
  if truthyId counter_account_id = false then
    .error (400, "Auto-matched transfer requires counter account")
  else
    let direction : Flow := flow.getD (if amount < 0 then .OUT else .IN)
    let magnitude := |amount|
    let signed_amount := if direction = .OUT then -magnitude else magnitude
    let item : Txn :=
      { base with
        from_account_id := some account_id
        to_account_id := counter_account_id
        amount := signed_amount
        is_balance_neutral := false
        is_auto_transfer_match := true
        exclude_from_reports := false }
    let journal := single_transfer_deltas account_id counter_account_id signed_amount
    .ok { rows := [item]
          journal := journal
          accounts := apply_journal accounts journal }

/-- The two-leg branch of the TRANSFER section of `create_transaction` (a
counter account id is present, not an auto match): a fresh transfer group,
the outgoing leg on the request account with amount `-abs(amount)`, the
incoming leg with the account roles swapped, amount `abs(amount)` and no
external id, both forced balance-neutral when the entry is effectively
neutral, and the two balance deltas applied unless neutral.  `base` is the
row `models.Transaction(**data)` from the unmodified column data. -/
def create_transfer_pair (accounts : List Account) (base : Txn)
    (account_id counter_account_id : Nat) (amount : ℤ) (group_id : Nat) :
    CreateTxnResult :=
  let neutral := base.is_balance_neutral || base.exclude_from_reports
  let out_tx : Txn :=
    { base with
      group_id := some group_id
      from_account_id := some account_id
      to_account_id := some counter_account_id
      amount := -|amount|
      is_auto_transfer_match := false }
  let in_tx : Txn :=
    { base with
      group_id := some group_id
      from_account_id := some counter_account_id
      to_account_id := some account_id
      amount := |amount|
      external_id := none
      imported_source_id := none
      is_auto_transfer_match := false }
  let out_tx1 := if neutral then { out_tx with is_balance_neutral := true } else out_tx
  let in_tx1 := if neutral then { in_tx with is_balance_neutral := true } else in_tx
  let journal : List (Nat × ℤ) :=
    if neutral then []
    else [(account_id, -|amount|), (counter_account_id, |amount|)]
  { rows := [out_tx1, in_tx1]
    journal := journal
    accounts := apply_journal accounts journal }

/-- `TransactionBulkService._create_transactions`: the balance-neutral flag
passed to `create_transaction` for each candidate — a transfer with neither
a counter account id nor a counter account name (an unpaired leftover
leg). -/
def bulk_balance_neutral (item : TransactionCreate) : Bool :=
  item.type == .TRANSFER && !truthyId item.counter_account_id &&
    !truthyStr item.counter_account_name

/-- `create_transaction`'s neutral folding:
`data["is_balance_neutral"] = bool(data.get("is_balance_neutral") or
balance_neutral or exclude_reports)`. -/
def fold_balance_neutral (base : Txn) (balance_neutral : Bool) : Txn :=
  { base with is_balance_neutral :=
      base.is_balance_neutral || balance_neutral || base.exclude_from_reports }

/-- The counter-less single-row branch of the TRANSFER section of
`create_transaction`: the counter account id is set to the account itself
(DB check constraint), one row is persisted, and the balance is applied
only when the entry is not effectively neutral. -/
def create_transfer_single (accounts : List Account) (base : Txn)
    (account_id : Nat) (amount : ℤ) : CreateTxnResult :=
  let neutral := base.is_balance_neutral || base.exclude_from_reports
  let item : Txn :=
    { base with
      from_account_id := some account_id
      to_account_id := some account_id
      amount := amount }
  let journal : List (Nat × ℤ) := if neutral then [] else [(account_id, amount)]
  { rows := [item]
    journal := journal
    accounts := apply_journal accounts journal }

/-!
## The cross-batch DB transfer matcher
(`TransactionBulkService._apply_db_transfer_matches`)
-/

/-- `_time_close`: true when either side has no time; otherwise the
second-of-day difference must be within the tolerance. -/
def _time_close (time_tolerance_seconds : Nat) (a b : Option PTime) : Bool :=
  match a, b with
  | some a, some b =>
    |((a.hour * 3600 + a.minute * 60 + a.second : ℤ) -
      (b.hour * 3600 + b.minute * 60 + b.second : ℤ))| ≤ (time_tolerance_seconds : ℤ)
  | _, _ => true

/-- The new candidate's (account, counter) identity pair: the from side is
primary when its reference is nonempty, otherwise the to side. -/
def newAccountCounter (new : TransactionCreate) : String × String :=
  let new_from := normalize_account_ref new.from_account_id new.from_account_name
  let new_to := normalize_account_ref new.to_account_id new.to_account_name
  if !new_from.isEmpty then (new_from, new_to) else (new_to, new_from)

/-- The existing row's (account, counter) identity pair: directional
columns first, falling back to the legacy hybrid views, then from-side
primary as for the candidate. -/
def exAccountCounter (ex : Txn) : String × String :=
  let ex_from0 := normalize_account_ref ex.from_account_id none
  let ex_from := if ex_from0.isEmpty then normalize_account_ref ex.account_id none
    else ex_from0
  let ex_to0 := normalize_account_ref ex.to_account_id none
  let ex_to := if ex_to0.isEmpty then normalize_account_ref ex.counter_account_id none
    else ex_to0
  if !ex_from.isEmpty then (ex_from, ex_to) else (ex_to, ex_from)

/-- Strong match: one side's (nonempty) counter identity equals the other
side's account identity. -/
def matchStrong (new : TransactionCreate) (ex : Txn) : Bool :=
  let (new_account, new_counter) := newAccountCounter new
  let (ex_account, ex_counter) := exAccountCounter ex
  (!new_counter.isEmpty && new_counter == ex_account) ||
    (!ex_counter.isEmpty && ex_counter == new_account)

/-- Weak match: no counter identity on either side, and both (present)
account identities differ. -/
def matchWeak (new : TransactionCreate) (ex : Txn) : Bool :=
  let (new_account, new_counter) := newAccountCounter new
  let (ex_account, ex_counter) := exAccountCounter ex
  new_counter.isEmpty && ex_counter.isEmpty &&
    (!new_account.isEmpty && !ex_account.isEmpty && new_account != ex_account)

/-- `_is_match`: the early-return chain of the cross-batch matcher.  The
candidate's amount must be truthy (nonzero); the sign gate only rejects
when both amounts are strictly positive or both strictly negative (a
zero-amount existing row passes it); then the absolute-amount tolerance,
the time window, and the strong/weak identity check.  (`existing.amount is
not None` always holds for a persisted row.) -/
def _is_match (amount_tolerance : ℤ) (time_tolerance_seconds : Nat)
    (new : TransactionCreate) (existing : Txn) : Bool :=
  if new.amount = 0 then false
  else if (new.amount > 0 ∧ existing.amount > 0) ∨
      (new.amount < 0 ∧ existing.amount < 0) then false
  else if |(|new.amount| - |existing.amount|)| > amount_tolerance then false
  else if _time_close time_tolerance_seconds new.occurred_time
      existing.occurred_time = false then false
  else if matchStrong new existing then true
  else if matchWeak new existing then true
  else false

/-- Python `str.upper`, character by character. -/
def pyUpper (s : String) : String :=
  (s.toList.map Char.toUpper).asString

/-- The candidate query of `_apply_db_transfer_matches`: same user,
transfer-capable type, same date, same (upper-cased) currency. -/
def _query_candidates (user_id : Nat) (txns : List Txn) (item : TransactionCreate) :
    List Txn :=
  txns.filter (fun t => t.user_id == user_id &&
    (t.type == TxnType.TRANSFER || t.type == TxnType.INCOME ||
      t.type == TxnType.EXPENSE) &&
    t.occurred_at == item.occurred_at &&
    t.currency == pyUpper item.currency)

/-- A transfer-like candidate: type TRANSFER or any transfer-flow hint. -/
def is_transfer_like (item : TransactionCreate) : Bool :=
  item.type == TxnType.TRANSFER || item.transfer_flow != none

/-- A dropping pass over the items: the hit items are counted, the others
are kept in order (the `for ... continue` loops of the bulk filters). -/
def foldl_filter {α : Type} (C : α → Bool) (l : List α) : List α × Nat :=
  l.foldl (fun acc x => if C x then (acc.1, acc.2 + 1) else (acc.1 ++ [x], acc.2))
    ([], 0)

/-- A still-unpaired transfer-like candidate with a matching persisted
row. -/
def db_match_hit (user_id : Nat) (txns : List Txn) (amount_tolerance : ℤ)
    (time_tolerance_seconds : Nat) (ib : TransactionCreate × Bool) : Bool :=
  is_transfer_like ib.1 && !ib.2 &&
    ((_query_candidates user_id txns ib.1).find?
      (fun ex => _is_match amount_tolerance time_tolerance_seconds ib.1 ex)).isSome

/-- `_apply_db_transfer_matches`: drop every still-unpaired transfer-like
candidate that matches an existing row, count the matches, keep everything
else; the persisted rows are not modified. -/
def _apply_db_transfer_matches (user_id : Nat) (txns : List Txn)
    (items_to_create : List (TransactionCreate × Bool)) (amount_tolerance : ℤ)
    (time_tolerance_seconds : Nat) :
    List (TransactionCreate × Bool) × Nat :=
  foldl_filter (db_match_hit user_id txns amount_tolerance time_tolerance_seconds)
    items_to_create

/-- A concrete transfer row template for the C1 scenario (the row
`models.Transaction(**data)` before branch overrides). -/
def c1base : Txn :=
  { id := 7
    user_id := 1
    occurred_at := ⟨2025, 2, 1⟩
    occurred_time := none
    type := .TRANSFER
    group_id := none
    from_account_id := some 1
    to_account_id := some 2
    card_account_id := none
    category_id := none
    amount := -45000
    currency := "KRW"
    memo := none
    payee_id := none
    external_id := some "ext-1"
    imported_source_id := none
    is_card_charge := false
    is_balance_neutral := false
    is_auto_transfer_match := false
    exclude_from_reports := false
    linked_transaction_id := none
    status := TransactionStatus.CLEARED
    billing_cycle_id := none }

/-- Two deposit accounts for the C1 scenario. -/
def c1accounts : List Account :=
  [⟨1, 1, "a", .DEPOSIT, 100000, some "KRW", none, none, none⟩,
   ⟨2, 1, "b", .DEPOSIT, 50000, some "KRW", none, none, none⟩]

/-- The still-unpaired transfer candidate of the zero-amount scenario:
amount +1, account id 1, no counter identity. -/
def c5new : TransactionCreate :=
  { c6out with
    from_account_id := some 1
    from_account_name := none
    amount := 1
    occurred_at := ⟨2025, 3, 1⟩
    transfer_flow := some .IN }

/-- The persisted zero-amount row the scenario matches against: account id
2, no counter, amount 0, same date and currency. -/
def c5ex : Txn :=
  { c1base with
    from_account_id := some 2
    to_account_id := none
    external_id := none
    amount := 0
    occurred_at := ⟨2025, 3, 1⟩ }

/-!
## Tolerance-based pairing (`pair_transfers_with_tolerance`) and the bulk
pipeline (`TransactionBulkService.bulk_create`)
-/

/-- Stable insertion of an entry into a list sorted by absolute amount
(equal keys keep their original order, as Python's stable `sorted`). -/
def insertByAbs (e : TransactionCreate) : List TransactionCreate →
    List TransactionCreate
  | [] => [e]
  | x :: xs => if |x.amount| ≤ |e.amount| then x :: insertByAbs e xs
    else e :: x :: xs

/-- `sorted(entries, key=lambda e: abs(e.amount))`: the stable sort by
absolute amount (a stable sort by a total key is unique, so insertion sort
gives the same list as Python's mergesort). -/
def sortByAbsAmount (entries : List TransactionCreate) : List TransactionCreate :=
  entries.foldl (fun acc e => insertByAbs e acc) []

/-- `TransferPairingService._find_best_match`: the best unused pool index
within the amount tolerance, scored by opposite signs and opposite flow
hints; ties keep the earliest index (strict improvement only). -/
def _find_best_match (tolerance : ℤ) (entry_a : TransactionCreate)
    (pool : List TransactionCreate) (used : List Bool) (skip_idx : Nat) :
    Option Nat :=
  let amount_a := |entry_a.amount|
  (pool.enum.foldl (fun (st : ℤ × Option Nat) je =>
    let j := je.1
    let entry_b := je.2
    if used.getD j false || j == skip_idx then st
    else if abs (amount_a - abs entry_b.amount) > tolerance then st
    else
      let score : ℤ :=
        (if (entry_a.amount < 0 ∧ entry_b.amount > 0) ∨
            (entry_a.amount > 0 ∧ entry_b.amount < 0) then 1 else 0) +
        (if entry_a.transfer_flow = some .OUT ∧ entry_b.transfer_flow = some .IN
          then 1 else 0) +
        (if entry_a.transfer_flow = some .IN ∧ entry_b.transfer_flow = some .OUT
          then 1 else 0)
      if score > st.1 then (score, some j) else st) (-1, none)).2

/-- One iteration of the `pair_transfers_with_tolerance` loop at index
`i`: an unused entry looks for its best tolerance match; on success both
indices are marked used and the combined record (or, if combining fails,
both entries as leftovers) is recorded.  Returns the updated
(used, pairs, leftovers) state. -/
def tolerance_step (tolerance : ℤ) (pool : List TransactionCreate) (i : Nat)
    (used : List Bool) (pairs : List (TransactionCreate × Bool))
    (leftovers : List TransactionCreate) :
    List Bool × List (TransactionCreate × Bool) × List TransactionCreate :=
  match pool[i]? with
  | none => (used, pairs, leftovers)
  | some entry_a =>
    if used.getD i false then (used, pairs, leftovers)
    else
      match _find_best_match tolerance entry_a pool used i with
      | none => (used, pairs, leftovers ++ [entry_a])
      | some j =>
        let used1 := (used.set i true).set j true
        let entry_b := (pool[j]?).getD entry_a
        let d := _decide_pair_direction entry_a entry_b
        match _build_pair d.1 d.2 with
        | .ok combined => (used1, pairs ++ [(combined, true)], leftovers)
        | .error _ => (used1, pairs, leftovers ++ [entry_a, entry_b])

/-- The index loop of `pair_transfers_with_tolerance`. -/
def tolerance_loop (tolerance : ℤ) (pool : List TransactionCreate) :
    Nat → Nat → List Bool → List (TransactionCreate × Bool) →
    List TransactionCreate →
    List (TransactionCreate × Bool) × List TransactionCreate × List Bool
  | 0, _, used, pairs, leftovers => (pairs, leftovers, used)
  | fuel + 1, i, used, pairs, leftovers =>
    match pool[i]? with
    | none => (pairs, leftovers, used)
    | some _ =>
      let s := tolerance_step tolerance pool i used pairs leftovers
      tolerance_loop tolerance pool fuel (i + 1) s.1 s.2.1 s.2.2

/-- `TransferPairingService.pair_transfers_with_tolerance`. -/
def pair_transfers_with_tolerance (tolerance : ℤ)
    (entries : List TransactionCreate) :
    List (TransactionCreate × Bool) × List TransactionCreate :=
  match entries with
  | [] => ([], [])
  | _ =>
    let pool := sortByAbsAmount entries
    let r := tolerance_loop tolerance pool pool.length 0
      (List.replicate pool.length false) [] []
    let leftovers2 := pool.enum.foldl (fun lf je =>
      if r.2.2.getD je.1 false = false ∧ lf.contains je.2 = false
      then lf ++ [je.2] else lf) r.2.1
    (r.1, leftovers2)

/-- The database state seen by the bulk service: account rows, transaction
rows, card statements, and the id counters of the next inserted rows. -/
structure BulkDB where
  accounts : List Account
  txns : List Txn
  statements : List CreditCardStatement
  nextAccountId : Nat
  nextTxnId : Nat
  nextGroupId : Nat
  deriving DecidableEq, Repr

/-- `routers.get_or_create_account_by_name`: find the user's account by
name, or append a fresh OTHER-type account with zero balance. -/
def get_or_create_account_by_name (db : BulkDB) (user_id : Nat) (name : String) :
    Account × BulkDB :=
  match db.accounts.find? (fun a => a.user_id == user_id && a.name == name) with
  | some a => (a, db)
  | none =>
    let a : Account :=
      ⟨db.nextAccountId, user_id, name, .OTHER, 0, none, none, none, none⟩
    (a, { db with
      accounts := db.accounts ++ [a]
      nextAccountId := db.nextAccountId + 1 })

/-- `models.Transaction(**data)` for the column data `create_transaction`
passes in its TRANSFER branches: the legacy `account_id` /
`counter_account_id` keys map onto the directional columns by type
(INCOME swaps the sides). -/
def mkTxn (id : Nat) (p : TransactionCreate) (account_id : Nat)
    (counter_account_id : Option Nat) (amount : ℤ) (is_bn is_auto : Bool)
    (group_id : Option Nat) (external_id imported_source_id : Option String) :
    Txn :=
  { id := id
    user_id := p.user_id
    occurred_at := p.occurred_at
    occurred_time := p.occurred_time
    type := p.type
    group_id := group_id
    from_account_id := if p.type = .INCOME then counter_account_id
      else some account_id
    to_account_id := if p.type = .INCOME then some account_id
      else counter_account_id
    card_account_id := p.card_account_id
    category_id := p.category_id
    amount := amount
    currency := p.currency
    memo := p.memo
    payee_id := p.payee_id
    external_id := external_id
    imported_source_id := imported_source_id
    is_card_charge := p.is_card_charge
    is_balance_neutral := is_bn
    is_auto_transfer_match := is_auto
    exclude_from_reports := p.exclude_from_reports
    linked_transaction_id := none
    status := TransactionStatus.CLEARED
    billing_cycle_id := p.billing_cycle_id }

/-- The counter-account resolution at the head of `create_transaction`'s
TRANSFER section: a counter account name without a counter account id is
resolved (or created) by name. -/
def resolve_counter (db : BulkDB) (p : TransactionCreate) :
    Option Nat × BulkDB :=
  if truthyId p.counter_account_id = false ∧
      truthyStr p.counter_account_name = true then
    let g := get_or_create_account_by_name db p.user_id
      (p.counter_account_name.getD "")
    (some g.1.id, g.2)
  else (p.counter_account_id, db)

/-- The TRANSFER section of `create_transaction` (counter-name resolution,
then the auto-match, counter-less and two-leg branches). -/
def create_transfer_section (db : BulkDB) (p : TransactionCreate)
    (account_id : Nat) (is_bn : Bool) (neutral auto_transfer_match : Bool) :
    Except (Nat × String) (Txn × BulkDB) :=
  let cres : Option Nat × BulkDB := resolve_counter db p
  let counter0 := cres.1
  let db1 := cres.2
  if auto_transfer_match then
    if truthyId counter0 = false then
      .error (400, "Auto-matched transfer requires counter account")
    else
      let direction : Flow := p.transfer_flow.getD
        (if p.amount < 0 then .OUT else .IN)
      let magnitude := |p.amount|
      let signed_amount := if direction = .OUT then -magnitude else magnitude
      let item := mkTxn db1.nextTxnId p account_id counter0 signed_amount
        false true none p.external_id p.imported_source_id
      let journal := single_transfer_deltas account_id counter0 signed_amount
      .ok (item, { db1 with
        txns := db1.txns ++ [item]
        accounts := apply_journal db1.accounts journal
        nextTxnId := db1.nextTxnId + 1 })
  else if truthyId counter0 = false then
    let item := mkTxn db1.nextTxnId p account_id (some account_id) p.amount
      is_bn false none p.external_id p.imported_source_id
    let journal : List (Nat × ℤ) :=
      if neutral then [] else [(account_id, p.amount)]
    .ok (item, { db1 with
      txns := db1.txns ++ [item]
      accounts := apply_journal db1.accounts journal
      nextTxnId := db1.nextTxnId + 1 })
  else
    let counter_id := counter0.getD 0
    let out_tx := mkTxn db1.nextTxnId p account_id counter0 (-|p.amount|)
      (if neutral then true else is_bn) auto_transfer_match
      (some db1.nextGroupId) p.external_id p.imported_source_id
    let in_tx := mkTxn (db1.nextTxnId + 1) p counter_id (some account_id)
      |p.amount| (if neutral then true else is_bn) auto_transfer_match
      (some db1.nextGroupId) none none
    let journal : List (Nat × ℤ) :=
      if neutral then []
      else [(account_id, -|p.amount|), (counter_id, |p.amount|)]
    .ok (out_tx, { db1 with
      txns := db1.txns ++ [out_tx, in_tx]
      accounts := apply_journal db1.accounts journal
      nextTxnId := db1.nextTxnId + 2
      nextGroupId := db1.nextGroupId + 1 })

/-- The account-name fallback of `create_transaction`'s account
resolution: a missing or empty name is rejected, otherwise the account is
found or created by name. -/
def nameFallback (db : BulkDB) (p : TransactionCreate) :
    Except (Nat × String) (Nat × BulkDB) :=
  match p.account_name with
  | some nm =>
    if nm.isEmpty then .error (400, "account_id or account_name required")
    else
      let g := get_or_create_account_by_name db p.user_id nm
      .ok (g.1.id, g.2)
  | none => .error (400, "account_id or account_name required")

/-- `create_transaction`'s account resolution: a nonzero account id wins,
otherwise the name fallback. -/
def resolveAccount (db : BulkDB) (p : TransactionCreate) :
    Except (Nat × String) (Nat × BulkDB) :=
  match p.account_id with
  | some a => if a = 0 then nameFallback db p else .ok (a, db)
  | none => nameFallback db p

/-- `create_transaction`'s card validation: a declared card id must name
one of the user's credit-card accounts. -/
def cardCheck (db1 : BulkDB) (p : TransactionCreate) :
    Except (Nat × String) Unit :=
  match p.card_id with
  | none => .ok ()
  | some cid =>
    match db1.accounts.find? (fun a => a.id == cid &&
        a.user_id == p.user_id) with
    | some ca =>
      if ca.type = .CREDIT_CARD then .ok ()
      else .error (400, "Invalid card_id for user")
    | none => .error (400, "Invalid card_id for user")

/-- The body of `create_transaction` after the external-id idempotency
check found nothing: the neutral folding, account resolution and
validation, the card and type guards, and the TRANSFER section.  The
credit-card charge flow, the settlement creation flow and category
resolution are outside the transfer scope of this development and are
marked by errors with code 0; no transfer payload (and no payload without
category input) reaches them. -/
def create_transaction_fresh (db : BulkDB) (p : TransactionCreate)
    (balance_neutral auto_transfer_match : Bool) :
    Except (Nat × String) (Txn × BulkDB) :=
  let exclude_reports := p.exclude_from_reports
  let is_bn := p.is_balance_neutral || balance_neutral || exclude_reports
  let neutral := is_bn || exclude_reports
  match resolveAccount db p with
  | .error e => .error e
  | .ok adb =>
    let account_id := adb.1
    let db1 := adb.2
    match db1.accounts.find? (fun a => a.id == account_id &&
        a.user_id == p.user_id) with
    | none => .error (400, "Invalid account_id for user")
    | some account =>
      match cardCheck db1 p with
      | .error e => .error e
      | .ok _ =>
        if account.type = .CREDIT_CARD then
          if p.type = .EXPENSE ∨ p.type = .INCOME then
            .error (0, "card-charge flow outside the transfer scope")
          else
            .error (400, "Credit card transactions must be income or expense")
        else if p.type = .SETTLEMENT then
          .error (0, "settlement creation outside the transfer scope")
        else
          let has_category_input := truthyId p.category_id ||
            (truthyStr p.category_group_name && truthyStr p.category_name)
          if has_category_input then
            .error (0, "category resolution outside the transfer scope")
          else if p.type = .INCOME ∨ p.type = .EXPENSE then
            .error (400, "category info required for income/expense")
          else
            create_transfer_section db1 p account_id is_bn neutral
              auto_transfer_match

/-- `create_transaction` on the paths a transfer batch can reach: the
external-id idempotency check first, then the fresh-creation body. -/
def create_transaction (db : BulkDB) (p : TransactionCreate)
    (balance_neutral auto_transfer_match : Bool) :
    Except (Nat × String) (Txn × BulkDB) :=
  let idempotent :=
    if truthyStr p.external_id then
      db.txns.find? (fun t => t.user_id == p.user_id &&
        t.external_id == p.external_id)
    else none
  match idempotent with
  | some t => .ok (t, db)
  | none => create_transaction_fresh db p balance_neutral auto_transfer_match

/-- `_normalize_items`: override the user id (rebuilding through the
schema is the identity on an already-validated payload apart from the user
id). -/
def _normalize_items (items : List TransactionCreate) (user_id : Nat) :
    List TransactionCreate :=
  items.map (fun i => if i.user_id ≠ user_id then { i with user_id := user_id }
    else i)

/-- The transfer group keys (date, time, upper-cased currency) in first
appearance order (Python dict insertion order). -/
def transferGroupKeys (normalized : List TransactionCreate) :
    List (PDate × Option PTime × String) :=
  normalized.foldl (fun ks i =>
    if i.type == TxnType.TRANSFER then
      let k := (i.occurred_at, i.occurred_time, pyUpper i.currency)
      if ks.contains k then ks else ks ++ [k]
    else ks) []

/-- The entries of one transfer group, in batch order. -/
def groupEntries (normalized : List TransactionCreate)
    (k : PDate × Option PTime × String) : List TransactionCreate :=
  normalized.filter (fun i => i.type == TxnType.TRANSFER &&
    (i.occurred_at, i.occurred_time, pyUpper i.currency) == k)

/-- `_pair_transfers`: non-transfers pass through first, then each transfer
group is paired with the 2-unit tolerance; pairs come before that group's
leftovers. -/
def _pair_transfers_bulk (normalized : List TransactionCreate) :
    List (TransactionCreate × Bool) × Nat :=
  let nonTransfers := (normalized.filter
    (fun i => i.type != TxnType.TRANSFER)).map (fun i => (i, false))
  (transferGroupKeys normalized).foldl (fun acc k =>
    let pr := pair_transfers_with_tolerance 2 (groupEntries normalized k)
    (acc.1 ++ pr.1 ++ pr.2.map (fun l => (l, false)),
      acc.2 + pr.1.length)) (nonTransfers, 0)

/-- `_filter_existing_by_external_id`: drop the items whose (truthy)
external id already belongs to one of the user's rows and return those
rows. -/
def batch_ext_ids (items : List (TransactionCreate × Bool)) : List String :=
  (items.filter (fun ib => ib.1.external_id ≠ none)).map
    (fun ib => ib.1.external_id.getD "")

/-- The user's persisted rows whose external id appears in the batch. -/
def existing_ext_rows (user_id : Nat) (txnsDb : List Txn)
    (items : List (TransactionCreate × Bool)) : List Txn :=
  txnsDb.filter (fun t => t.user_id == user_id &&
    (match t.external_id with
     | some e => (batch_ext_ids items).contains e
     | none => false))

/-- The truthy external ids of those persisted rows. -/
def existing_ext_set (user_id : Nat) (txnsDb : List Txn)
    (items : List (TransactionCreate × Bool)) : List String :=
  ((existing_ext_rows user_id txnsDb items).filter
    (fun t => truthyStr t.external_id)).map (fun t => t.external_id.getD "")

/-- An item whose truthy external id is already persisted for the user. -/
def ext_dup_hit (user_id : Nat) (txnsDb : List Txn)
    (items : List (TransactionCreate × Bool))
    (ib : TransactionCreate × Bool) : Bool :=
  match ib.1.external_id with
  | some e => !e.isEmpty && (existing_ext_set user_id txnsDb items).contains e
  | none => false

def _filter_existing_by_external_id (user_id : Nat) (txnsDb : List Txn)
    (items : List (TransactionCreate × Bool)) :
    List (TransactionCreate × Bool) × Nat × List Txn :=
  if batch_ext_ids items = [] then (items, 0, [])
  else if existing_ext_set user_id txnsDb items = [] then (items, 0, [])
  else
    let fs := foldl_filter (ext_dup_hit user_id txnsDb items) items
    (fs.1, fs.2, existing_ext_rows user_id txnsDb items)

/-- Python `str.startswith`, character by character. -/
def pyStartsWith (s p : String) : Bool :=
  p.toList.isPrefixOf s.toList

/-- `_filter_natural_duplicates`: importer-generated items (external id
prefixed `banksalad-`) whose resolved account already has a row of the
same type, date, currency, (time,) and same-or-negated amount are dropped.
A to-side name is resolvable only when the from-side name is absent (the
name map collects one name per item). -/
def natural_resolved_account (user_id : Nat) (db : BulkDB)
    (item : TransactionCreate) : Option Nat :=
  let pid : Option Nat :=
    if truthyId item.from_account_id then item.from_account_id
    else item.to_account_id
  let aid1 : Option Nat :=
    match pid with
    | some a => some a
    | none =>
      match item.from_account_name with
      | some nm =>
        (db.accounts.find? (fun a => a.user_id == user_id &&
          a.name == nm)).map Account.id
      | none => none
  match aid1 with
  | some a => some a
  | none =>
    if truthyStr item.from_account_name then none
    else
      match item.to_account_name with
      | some nm =>
        (db.accounts.find? (fun a => a.user_id == user_id &&
          a.name == nm)).map Account.id
      | none => none

/-- An importer-generated item with a natural duplicate among the user's
rows. -/
def natural_dup_hit (user_id : Nat) (db : BulkDB) (item : TransactionCreate) :
    Bool :=
  if pyStartsWith (item.external_id.getD "") "banksalad-" = false then false
  else
    match natural_resolved_account user_id db item with
    | none => false
    | some aid =>
      (db.txns.find? (fun t => t.user_id == user_id &&
        t.type == item.type &&
        t.occurred_at == item.occurred_at &&
        (t.from_account_id == some aid || t.to_account_id == some aid) &&
        t.currency == pyUpper item.currency &&
        (item.occurred_time == none || t.occurred_time == item.occurred_time) &&
        (t.amount == item.amount || t.amount == -item.amount))).isSome

def _filter_natural_duplicates (user_id : Nat) (db : BulkDB)
    (items : List (TransactionCreate × Bool)) :
    List (TransactionCreate × Bool) × Nat :=
  foldl_filter (fun ib => natural_dup_hit user_id db ib.1) items

/-- A settlement item whose statement is already paid or already carries a
settlement transaction id (`_filter_settlement_duplicates` drops it). -/
def settlement_dup_hit (db : BulkDB) (item : TransactionCreate) : Bool :=
  if item.type == TxnType.SETTLEMENT && item.billing_cycle_id != none then
    match db.statements.find? (fun s => some s.id == item.billing_cycle_id) with
    | some stmt =>
      stmt.status == .PAID || stmt.settlement_transaction_id != none
    | none => false
  else false

def _filter_settlement_duplicates (db : BulkDB)
    (items : List (TransactionCreate × Bool)) :
    List (TransactionCreate × Bool) × Nat :=
  foldl_filter (fun ib => settlement_dup_hit db ib.1) items

/-- `_create_transactions`: call `create_transaction` for each remaining
item, with the leftover-transfer balance-neutral flag and the item's
auto-match flag. -/
def create_step (st : List Txn × BulkDB) (ib : TransactionCreate × Bool) :
    Except (Nat × String) (List Txn × BulkDB) :=
  match create_transaction st.2 ib.1 (bulk_balance_neutral ib.1) ib.2 with
  | .error e => .error e
  | .ok r => .ok (st.1 ++ [r.1], r.2)

/-- The creation loop: the first raised error aborts the whole batch. -/
def create_loop (st : List Txn × BulkDB) :
    List (TransactionCreate × Bool) → Except (Nat × String) (List Txn × BulkDB)
  | [] => .ok st
  | ib :: rest =>
    match create_step st ib with
    | .error e => .error e
    | .ok st1 => create_loop st1 rest

def _create_transactions_bulk (db : BulkDB)
    (items : List (TransactionCreate × Bool)) :
    Except (Nat × String) (List Txn × BulkDB) :=
  create_loop ([], db) items

/-- `TransactionBulkService.bulk_create` (without override): normalize,
pair within the batch, drop cross-batch DB matches, drop existing external
ids (collecting the existing rows), drop natural and settlement
duplicates, create the rest, and return the existing rows followed by the
created rows, together with the final state and the cross-batch match
count. -/
def bulk_create (db : BulkDB) (user_id : Nat)
    (items : List TransactionCreate) :
    Except (Nat × String) (List Txn × BulkDB × Nat) :=
  match items with
  | [] => .ok ([], db, 0)
  | _ :: _ =>
    let normalized := _normalize_items items user_id
    let r1 := _pair_transfers_bulk normalized
    let r2 := _apply_db_transfer_matches user_id db.txns r1.1 2 60
    let r3 := _filter_existing_by_external_id user_id db.txns r2.1
    let r4 := _filter_natural_duplicates user_id db r3.1
    let r5 := _filter_settlement_duplicates db r4.1
    match _create_transactions_bulk db r5.1 with
    | .error e => .error e
    | .ok cr => .ok (r3.2.2 ++ cr.1, cr.2, r2.2)

/-- The fresh database of the re-submission scenario: the two deposit
accounts, no rows. -/
def c4db0 : BulkDB :=
  { accounts := c1accounts
    txns := []
    statements := []
    nextAccountId := 3
    nextTxnId := 1
    nextGroupId := 1 }

/-- Batch item A: the outgoing leg (account 1 → 2, -100, key `e1`). -/
def c4A : TransactionCreate :=
  { c6out with
    from_account_id := some 1
    from_account_name := none
    to_account_id := some 2
    amount := -100
    external_id := some "e1"
    occurred_at := ⟨2025, 4, 1⟩ }

/-- Batch item B: the incoming leg (account 2 → 1, +100, key `e2`). -/
def c4B : TransactionCreate :=
  { c4A with
    from_account_id := some 2
    to_account_id := some 1
    amount := 100
    transfer_flow := some .IN
    external_id := some "e2" }

/-- Batch item C: a second +100 inflow on account 2 with no counter
identity (key `e3`). -/
def c4C : TransactionCreate :=
  { c4B with to_account_id := none, external_id := some "e3" }

/-- The re-submitted batch. -/
def c4batch : List TransactionCreate := [c4A, c4B, c4C]

def c4run1 : Except (Nat × String) (List Txn × BulkDB × Nat) :=
  bulk_create c4db0 1 c4batch

def c4db1 : BulkDB := (c4run1.toOption.map (fun r => r.2.1)).getD c4db0

def c4ret1 : List Txn := (c4run1.toOption.map (fun r => r.1)).getD []

def c4run2 : Except (Nat × String) (List Txn × BulkDB × Nat) :=
  bulk_create c4db1 1 c4batch

def c4db2 : BulkDB := (c4run2.toOption.map (fun r => r.2.1)).getD c4db0

def c4ret2 : List Txn := (c4run2.toOption.map (fun r => r.1)).getD []

/-! ### Lemmas about the balance primitives -/

theorem apply_delta_find_ne (accounts : List Account) (i j : Nat) (d : ℤ) (hij : j ≠ i) :
    queryAccountById (_apply_delta accounts i d) j = queryAccountById accounts j := by
  induction accounts with
  | nil => rfl
  | cons a rest ih =>
    by_cases hai : a.id = i
    · have haj : (a.id == j) = false := by
        simp only [beq_eq_false_iff_ne]
        exact fun h => hij (h.symm.trans hai)
      simp only [_apply_delta, if_pos hai, queryAccountById, List.find?]
      by_cases hcard : a.type.isCard
      · simp [hcard, haj]
      · simp [hcard, haj]
    · simp only [_apply_delta, if_neg hai, queryAccountById, List.find?]
      by_cases haj : (a.id == j)
      · simp [haj]
      · simpa [haj] using ih

theorem apply_delta_comm (accounts : List Account) (i j : Nat) (d e : ℤ) (hij : i ≠ j) :
    _apply_delta (_apply_delta accounts i d) j e =
      _apply_delta (_apply_delta accounts j e) i d := by
  induction accounts with
  | nil => rfl
  | cons a rest ih =>
    by_cases hai : a.id = i
    · have haj : ¬ a.id = j := fun h => hij (hai.symm.trans h)
      by_cases hcard : a.type.isCard <;>
        simp [_apply_delta, hai, haj, hcard, hij, Ne.symm hij]
    · by_cases haj : a.id = j
      · by_cases hcard : a.type.isCard <;>
          simp [_apply_delta, hai, haj, hcard, hij, Ne.symm hij]
      · simp [_apply_delta, hai, haj, ih]

theorem apply_delta_preserves_card_zero (accounts : List Account) (i : Nat) (d : ℤ)
    (h : cardBalancesZero accounts) : cardBalancesZero (_apply_delta accounts i d) := by
  induction accounts with
  | nil => exact h
  | cons a rest ih =>
    have hrest : cardBalancesZero rest := fun b hb => h b (List.mem_cons_of_mem a hb)
    by_cases hai : a.id = i
    · by_cases hcard : a.type.isCard
      · intro b hb
        simp only [_apply_delta, if_pos hai, if_pos hcard, List.mem_cons] at hb
        rcases hb with hb | hb
        · intro _; simp [hb]
        · exact h b (List.mem_cons_of_mem a hb)
      · intro b hb
        simp only [_apply_delta, if_pos hai, if_neg hcard, List.mem_cons] at hb
        rcases hb with hb | hb
        · intro hc
          exfalso
          apply hcard
          subst hb
          simpa using hc
        · exact h b (List.mem_cons_of_mem a hb)
    · intro b hb
      simp only [_apply_delta, if_neg hai, List.mem_cons] at hb
      rcases hb with hb | hb
      · exact hb ▸ h a (List.mem_cons_self a rest)
      · exact ih hrest b hb

theorem apply_delta_inverse (accounts : List Account) (i : Nat) (d : ℤ)
    (h : cardBalancesZero accounts) :
    _apply_delta (_apply_delta accounts i d) i (-d) = accounts := by
  induction accounts with
  | nil => rfl
  | cons a rest ih =>
    have hrest : cardBalancesZero rest := fun b hb => h b (List.mem_cons_of_mem a hb)
    obtain ⟨aid, auid, anm, atp, abal, acur, alid, abcd, apd⟩ := a
    by_cases hai : aid = i
    · subst hai
      by_cases hcard : atp.isCard
      · have hzero : abal = 0 := h _ (List.mem_cons_self _ rest) hcard
        subst hzero
        simp [_apply_delta, hcard]
      · have hb : abal + d + -d = abal := by ring
        simp [_apply_delta, hcard, hb]
    · simp [_apply_delta, hai, ih hrest]

theorem apply_delta_if_truthy_inverse (accounts : List Account) (o : Option Nat) (d : ℤ)
    (h : cardBalancesZero accounts) :
    applyDeltaIfTruthy (applyDeltaIfTruthy accounts o d) o (-d) = accounts := by
  match o with
  | none => rfl
  | some i =>
    by_cases hi : i ≠ 0
    · simp only [applyDeltaIfTruthy, if_pos hi]
      exact apply_delta_inverse accounts i d h
    · simp [applyDeltaIfTruthy, hi]

theorem apply_delta_if_truthy_preserves_card_zero (accounts : List Account)
    (o : Option Nat) (d : ℤ) (h : cardBalancesZero accounts) :
    cardBalancesZero (applyDeltaIfTruthy accounts o d) := by
  match o with
  | none => exact h
  | some i =>
    by_cases hi : i ≠ 0
    · simp only [applyDeltaIfTruthy, if_pos hi]
      exact apply_delta_preserves_card_zero accounts i d h
    · simpa [applyDeltaIfTruthy, hi] using h

theorem apply_delta_if_truthy_comm (accounts : List Account) (o p : Option Nat) (d e : ℤ)
    (hop : ∀ i j, o = some i → p = some j → i ≠ j) :
    applyDeltaIfTruthy (applyDeltaIfTruthy accounts o d) p e =
      applyDeltaIfTruthy (applyDeltaIfTruthy accounts p e) o d := by
  match o, p with
  | none, _ => rfl
  | some i, none => rfl
  | some i, some j =>
    by_cases hi : i ≠ 0
    · by_cases hj : j ≠ 0
      · simp only [applyDeltaIfTruthy, if_pos hi, if_pos hj]
        exact apply_delta_comm accounts i j d e (hop i j rfl rfl)
      · simp [applyDeltaIfTruthy, hi, hj]
    · simp [applyDeltaIfTruthy, hi]

theorem apply_delta_if_truthy_find_ne (accounts : List Account) (o : Option Nat) (d : ℤ)
    (j : Nat) (hj : o ≠ some j) :
    queryAccountById (applyDeltaIfTruthy accounts o d) j = queryAccountById accounts j := by
  match o with
  | none => rfl
  | some i =>
    by_cases hi : i ≠ 0
    · simp only [applyDeltaIfTruthy, if_pos hi]
      exact apply_delta_find_ne accounts i j d (fun h => hj (h ▸ rfl))
    · simp [applyDeltaIfTruthy, hi]

theorem apply_delta_if_truthy_not_truthy (accounts : List Account) (o : Option Nat) (d : ℤ)
    (h : truthyId o = false) : applyDeltaIfTruthy accounts o d = accounts := by
  match o with
  | none => rfl
  | some i =>
    simp only [truthyId, bne_eq_false_iff_eq] at h
    simp [applyDeltaIfTruthy, h]

theorem apply_balance_eq (s : List Account) (f t : Option Nat) (m : ℤ) :
    apply_balance s f t m =
      if |m| = 0 then s
      else if truthyId f && truthyId t && f == t then s
      else applyDeltaIfTruthy (applyDeltaIfTruthy s f (-|m|)) t |m| := rfl

theorem revert_single_transfer_effect_eq (s : List Account) (f t : Option Nat) (m : ℤ) :
    revert_single_transfer_effect s f t m =
      if |m| = 0 then s
      else if truthyId f && truthyId t && f == t then s
      else applyDeltaIfTruthy (applyDeltaIfTruthy s f |m|) t (-|m|) := rfl

/-- C2, part: `revert_single_transfer_effect` undoes `apply_balance` exactly,
on states satisfying the card-balance invariant of the data model. -/
theorem apply_revert_core (s : List Account) (f t : Option Nat) (m : ℤ)
    (hcard : cardBalancesZero s) :
    revert_single_transfer_effect (apply_balance s f t m) f t m = s := by
  rw [apply_balance_eq, revert_single_transfer_effect_eq]
  by_cases hm : |m| = 0
  · simp [hm]
  · by_cases hself : (truthyId f && truthyId t && f == t) = true
    · simp [hm, hself]
    · simp only [hm, hself, if_neg, if_false, Bool.not_eq_true]
      by_cases hf : truthyId f = true
      · by_cases ht : truthyId t = true
        · have hft : f ≠ t := by
            intro h
            exact hself (by simp [hf, ht, h])
          have hop : ∀ i j, f = some i → t = some j → i ≠ j := by
            intro i j hfi htj hij
            exact hft (by rw [hfi, htj, hij])
          rw [apply_delta_if_truthy_comm (applyDeltaIfTruthy s f (-|m|)) t f |m| |m|
            (fun i j hti hfj => (hop j i hfj hti).symm)]
          have h1 : applyDeltaIfTruthy (applyDeltaIfTruthy s f (-|m|)) f |m| = s := by
            have := apply_delta_if_truthy_inverse s f (-|m|) hcard
            simpa using this
          rw [h1]
          exact apply_delta_if_truthy_inverse s t |m| hcard
        · have hidt : ∀ x d, applyDeltaIfTruthy x t d = x := fun x d =>
            apply_delta_if_truthy_not_truthy x t d (by simpa using ht)
          simp only [hidt]
          have := apply_delta_if_truthy_inverse s f (-|m|) hcard
          simpa using this
      · have hidf : ∀ x d, applyDeltaIfTruthy x f d = x := fun x d =>
          apply_delta_if_truthy_not_truthy x f d (by simpa using hf)
        simp only [hidf]
        exact apply_delta_if_truthy_inverse s t |m| hcard

theorem apply_balance_self_noop (s : List Account) (f : Option Nat) (m : ℤ) :
    apply_balance s f f m = s := by
  rw [apply_balance_eq]
  by_cases hm : |m| = 0
  · simp [hm]
  · by_cases hf : truthyId f = true
    · simp [hm, hf]
    · have hid : ∀ x d, applyDeltaIfTruthy x f d = x := fun x d =>
        apply_delta_if_truthy_not_truthy x f d (by simpa using hf)
      simp [hm, hf, hid]

theorem revert_self_noop (s : List Account) (f : Option Nat) (m : ℤ) :
    revert_single_transfer_effect s f f m = s := by
  rw [revert_single_transfer_effect_eq]
  by_cases hm : |m| = 0
  · simp [hm]
  · by_cases hf : truthyId f = true
    · simp [hm, hf]
    · have hid : ∀ x d, applyDeltaIfTruthy x f d = x := fun x d =>
        apply_delta_if_truthy_not_truthy x f d (by simpa using hf)
      simp [hm, hf, hid]

theorem apply_balance_frame (s : List Account) (f t : Option Nat) (m : ℤ) (j : Nat)
    (hfj : f ≠ some j) (htj : t ≠ some j) :
    queryAccountById (apply_balance s f t m) j = queryAccountById s j := by
  rw [apply_balance_eq]
  by_cases hm : |m| = 0
  · simp [hm]
  · by_cases hself : (truthyId f && truthyId t && f == t) = true
    · simp [hm, hself]
    · simp only [hm, hself, if_neg, if_false, Bool.not_eq_true]
      rw [apply_delta_if_truthy_find_ne _ t _ j htj,
        apply_delta_if_truthy_find_ne _ f _ j hfj]

theorem revert_frame (s : List Account) (f t : Option Nat) (m : ℤ) (j : Nat)
    (hfj : f ≠ some j) (htj : t ≠ some j) :
    queryAccountById (revert_single_transfer_effect s f t m) j = queryAccountById s j := by
  rw [revert_single_transfer_effect_eq]
  by_cases hm : |m| = 0
  · simp [hm]
  · by_cases hself : (truthyId f && truthyId t && f == t) = true
    · simp [hm, hself]
    · simp only [hm, hself, if_neg, if_false, Bool.not_eq_true]
      rw [apply_delta_if_truthy_find_ne _ t _ j htj,
        apply_delta_if_truthy_find_ne _ f _ j hfj]

/-- C2: on every state satisfying the card-balance data-model invariant,
`revert_single_transfer_effect(from, to, m)` applied after
`apply_balance(from, to, m)` restores every account balance (revert is the
exact inverse of apply); both operations are no-ops on zero magnitude or on
`from == to`; and both operations touch only the two referenced account rows
(every other row is unchanged). -/
theorem C2_apply_revert_exact_inverse (s : List Account) (f t : Option Nat) (m : ℤ)
    (hcard : cardBalancesZero s) :
    revert_single_transfer_effect (apply_balance s f t m) f t m = s ∧
    (m = 0 → apply_balance s f t m = s ∧ revert_single_transfer_effect s f t m = s) ∧
    (f = t → apply_balance s f t m = s ∧ revert_single_transfer_effect s f t m = s) ∧
    (∀ j : Nat, f ≠ some j → t ≠ some j →
      queryAccountById (apply_balance s f t m) j = queryAccountById s j ∧
      queryAccountById (revert_single_transfer_effect s f t m) j = queryAccountById s j) := by
  refine ⟨apply_revert_core s f t m hcard, ?_, ?_, ?_⟩
  · intro hm
    subst hm
    constructor
    · rw [apply_balance_eq]; simp
    · rw [revert_single_transfer_effect_eq]; simp
  · intro hft
    subst hft
    exact ⟨apply_balance_self_noop s f m, revert_self_noop s f m⟩
  · intro j hfj htj
    exact ⟨apply_balance_frame s f t m j hfj htj, revert_frame s f t m j hfj htj⟩

/-- Witness for C2 at a concrete state: applying a transfer of magnitude 40
from account 1 to account 2 and reverting it restores the state. -/
theorem C2_apply_revert_exact_inverse_witness :
    cardBalancesZero c2accounts ∧
      revert_single_transfer_effect (apply_balance c2accounts (some 1) (some 2) 40)
        (some 1) (some 2) 40 = c2accounts :=
  ⟨by unfold cardBalancesZero; decide,
    (C2_apply_revert_exact_inverse c2accounts (some 1) (some 2) 40
      (by unfold cardBalancesZero; decide)).1⟩

theorem apply_delta_card_row (s : List Account) (i : Nat) (d : ℤ) (a : Account)
    (hfind : queryAccountById s i = some a) (hcard : a.type.isCard = true) :
    queryAccountById (_apply_delta s i d) i = some { a with current_balance := 0 } := by
  induction s with
  | nil => simp [queryAccountById] at hfind
  | cons b rest ih =>
    by_cases hbi : b.id = i
    · have hb : b = a := by
        have hbeq : (b.id == i) = true := by simp [hbi]
        simp only [queryAccountById, List.find?, hbeq] at hfind
        exact Option.some_injective _ hfind
      subst hb
      simp [_apply_delta, hbi, hcard, queryAccountById, List.find?]
    · have hne : (b.id == i) = false := by simp [hbi]
      simp only [queryAccountById, List.find?, hne] at hfind
      have := ih hfind
      simpa [_apply_delta, hbi, queryAccountById, List.find?, hne] using this

/-- C3: every balance application that targets a card-kind account leaves that
account's stored balance exactly zero — the delta is never accumulated.  The
statement covers `_apply_delta` itself and each public entry point
(`apply_balance`, `revert_single_transfer_effect`, `apply_signed_delta`) on
the calls that actually touch the card account. -/
theorem C3_card_accounts_pinned_to_zero (s : List Account) :
    (∀ (i : Nat) (d : ℤ) (a : Account), queryAccountById s i = some a →
      a.type.isCard = true → balanceOf (_apply_delta s i d) i = some 0) ∧
    (∀ (f t : Option Nat) (m : ℤ) (i : Nat) (a : Account), m ≠ 0 →
      ¬(truthyId f = true ∧ truthyId t = true ∧ f = t) →
      ((f = some i ∨ t = some i) ∧ i ≠ 0) →
      queryAccountById s i = some a → a.type.isCard = true →
      balanceOf (apply_balance s f t m) i = some 0) ∧
    (∀ (f t : Option Nat) (m : ℤ) (i : Nat) (a : Account), m ≠ 0 →
      ¬(truthyId f = true ∧ truthyId t = true ∧ f = t) →
      ((f = some i ∨ t = some i) ∧ i ≠ 0) →
      queryAccountById s i = some a → a.type.isCard = true →
      balanceOf (revert_single_transfer_effect s f t m) i = some 0) ∧
    (∀ (d : ℤ) (i : Nat) (a : Account), d ≠ 0 → i ≠ 0 →
      queryAccountById s i = some a → a.type.isCard = true →
      balanceOf (apply_signed_delta s (some i) d) i = some 0) := by
  have habs : ∀ m : ℤ, m ≠ 0 → ¬(|m| = 0) := fun m hm h => hm (abs_eq_zero.mp h)
  have zrow : ∀ (x : List Account) (o : Option Nat) (dl : ℤ) (i : Nat) (a : Account),
      o = some i → i ≠ 0 → queryAccountById x i = some a → a.type.isCard = true →
      queryAccountById (applyDeltaIfTruthy x o dl) i =
        some { a with current_balance := 0 } := by
    intro x o dl i a ho hi hfind hc
    subst ho
    simp only [applyDeltaIfTruthy, if_pos hi]
    exact apply_delta_card_row x i dl a hfind hc
  have keep : ∀ (x : List Account) (o : Option Nat) (dl : ℤ) (i : Nat),
      o ≠ some i → queryAccountById (applyDeltaIfTruthy x o dl) i = queryAccountById x i :=
    fun x o dl i h => apply_delta_if_truthy_find_ne x o dl i h
  have twoStep : ∀ (x : List Account) (f t : Option Nat) (d1 d2 : ℤ) (i : Nat) (a : Account),
      ¬(f = some i ∧ t = some i) → (f = some i ∨ t = some i) → i ≠ 0 →
      queryAccountById x i = some a → a.type.isCard = true →
      balanceOf (applyDeltaIfTruthy (applyDeltaIfTruthy x f d1) t d2) i = some 0 := by
    intro x f t d1 d2 i a hdisj hor hi hfind hc
    rcases hor with hf | ht
    · have hti : t ≠ some i := fun h => hdisj ⟨hf, h⟩
      have h1 := zrow x f d1 i a hf hi hfind hc
      rw [balanceOf, keep _ t d2 i hti, h1]
      rfl
    · by_cases hfi : f = some i
      · exact absurd ⟨hfi, ht⟩ hdisj
      · have h1 : queryAccountById (applyDeltaIfTruthy x f d1) i = some a := by
          rw [keep x f d1 i hfi]; exact hfind
        have h2 := zrow _ t d2 i a ht hi h1 hc
        rw [balanceOf, h2]
        rfl
  have unfoldTwo : ∀ (f t : Option Nat) (m : ℤ), m ≠ 0 →
      (truthyId f && truthyId t && f == t) ≠ true →
      apply_balance s f t m =
        applyDeltaIfTruthy (applyDeltaIfTruthy s f (-|m|)) t |m| := by
    intro f t m hm hself
    rw [apply_balance_eq, if_neg (habs m hm), if_neg hself]
  have unfoldTwoR : ∀ (f t : Option Nat) (m : ℤ), m ≠ 0 →
      (truthyId f && truthyId t && f == t) ≠ true →
      revert_single_transfer_effect s f t m =
        applyDeltaIfTruthy (applyDeltaIfTruthy s f |m|) t (-|m|) := by
    intro f t m hm hself
    rw [revert_single_transfer_effect_eq, if_neg (habs m hm), if_neg hself]
  have mkSelf : ∀ (f t : Option Nat) (i : Nat), i ≠ 0 →
      ¬(truthyId f = true ∧ truthyId t = true ∧ f = t) →
      (f = some i ∨ t = some i) → ¬(f = some i ∧ t = some i) := by
    intro f t i hi hself _ hpair
    obtain ⟨hf, ht⟩ := hpair
    subst hf; subst ht
    exact hself ⟨by simp [truthyId, hi], by simp [truthyId, hi], rfl⟩
  have mkNe : ∀ (f t : Option Nat),
      ¬(truthyId f = true ∧ truthyId t = true ∧ f = t) →
      (truthyId f && truthyId t && f == t) ≠ true := by
    intro f t hself h
    simp only [Bool.and_eq_true, beq_iff_eq] at h
    exact hself ⟨h.1.1, h.1.2, h.2⟩
  refine ⟨?_, ?_, ?_, ?_⟩
  · intro i d a hf hc
    rw [balanceOf, apply_delta_card_row s i d a hf hc]
    rfl
  · intro f t m i a hm hself htarget hfind hc
    obtain ⟨hor, hi⟩ := htarget
    rw [unfoldTwo f t m hm (mkNe f t hself)]
    exact twoStep s f t (-|m|) (|m|) i a (mkSelf f t i hi hself hor) hor hi hfind hc
  · intro f t m i a hm hself htarget hfind hc
    obtain ⟨hor, hi⟩ := htarget
    rw [unfoldTwoR f t m hm (mkNe f t hself)]
    exact twoStep s f t (|m|) (-|m|) i a (mkSelf f t i hi hself hor) hor hi hfind hc
  · intro d i a hd hi hfind hc
    simp only [apply_signed_delta, if_neg hd]
    by_cases hpos : d > 0
    · rw [if_pos hpos]
      have hself : ¬(truthyId (none : Option Nat) = true ∧ truthyId (some i) = true ∧
          (none : Option Nat) = some i) := by
        intro h
        simp [truthyId] at h
      rw [show apply_balance s none (some i) d =
          applyDeltaIfTruthy (applyDeltaIfTruthy s none (-|d|)) (some i) |d| from by
        rw [apply_balance_eq, if_neg (habs d hd), if_neg (mkNe none (some i) hself)]]
      exact twoStep s none (some i) (-|d|) (|d|) i a (by simp) (Or.inr rfl) hi hfind hc
    · rw [if_neg hpos]
      have hself : ¬(truthyId (some i) = true ∧ truthyId (none : Option Nat) = true ∧
          some i = (none : Option Nat)) := by
        intro h
        simp [truthyId] at h
      have habsd : |d| ≠ 0 := fun h => hd (abs_eq_zero.mp h)
      rw [show apply_balance s (some i) none |d| =
          applyDeltaIfTruthy (applyDeltaIfTruthy s (some i) (-|(|d|)|)) none |(|d|)| from by
        rw [apply_balance_eq, if_neg (habs (|d|) habsd), if_neg (mkNe (some i) none hself)]]
      exact twoStep s (some i) none (-|(|d|)|) (|(|d|)|) i a (by simp) (Or.inl rfl) hi hfind hc

/-- Witness for C3 at a concrete state: applying a transfer out of the
check-card account 1 leaves its stored balance exactly zero. -/
theorem C3_card_accounts_pinned_to_zero_witness :
    (30 : ℤ) ≠ 0 ∧
      balanceOf (apply_balance c3accounts (some 1) (some 2) 30) 1 = some 0 :=
  ⟨by norm_num,
    (C3_card_accounts_pinned_to_zero c3accounts).2.1 (some 1) (some 2) 30 1
      ⟨1, 1, "check card", .CHECK_CARD, 0, some "KRW", some 2, none, none⟩
      (by norm_num) (by decide) ⟨Or.inl rfl, by decide⟩ (by decide) (by decide)⟩

theorem monthly_loop_clamped (day : Nat) (we : PDate) :
    ∀ (fuel y m : Nat) (d : PDate), d ∈ monthlyLoop day we fuel y m →
      d.day = min day (monthLength d.year d.month) := by
  intro fuel
  induction fuel with
  | zero => intro y m d hd; simp [monthlyLoop] at hd
  | succ n ih =>
    intro y m d hd
    simp only [monthlyLoop] at hd
    by_cases hle : PDate.leb (buildMonthCandidate day y m) we
    · rw [if_pos hle] at hd
      rcases List.mem_cons.mp hd with hd | hd
      · subst hd; rfl
      · exact ih _ _ d hd
    · rw [if_neg hle] at hd
      simp at hd

theorem monthly_loop_head (day : Nat) (we : PDate) (fuel y m : Nat) (d : PDate)
    (hd : (monthlyLoop day we fuel y m).head? = some d) :
    d = buildMonthCandidate day y m := by
  cases fuel with
  | zero => simp [monthlyLoop] at hd
  | succ n =>
    simp only [monthlyLoop] at hd
    by_cases hle : PDate.leb (buildMonthCandidate day y m) we
    · rw [if_pos hle] at hd
      simpa using hd.symm
    · rw [if_neg hle] at hd
      simp at hd

theorem monthly_loop_steps (day : Nat) (we : PDate) :
    ∀ (fuel y m : Nat),
      List.Chain' (fun a b => (b.year, b.month) = stepMonth a.year a.month)
        (monthlyLoop day we fuel y m) := by
  intro fuel
  induction fuel with
  | zero => intro y m; simp [monthlyLoop]
  | succ n ih =>
    intro y m
    simp only [monthlyLoop]
    by_cases hle : PDate.leb (buildMonthCandidate day y m) we
    · rw [if_pos hle]
      refine List.Chain'.cons' (ih _ _) ?_
      intro d hd
      rw [monthly_loop_head day we n _ _ d hd]
      rfl
    · rw [if_neg hle]
      simp

/-- C8: a monthly rule with day-of-month 31 generated over
2025-01-01 .. 2025-03-31 yields exactly 2025-01-31, 2025-02-28 and
2025-03-31; in general every generated occurrence is the declared
day-of-month clamped to the last valid day of its month, and generation
steps exactly one calendar month at a time. -/
theorem C8_monthly_day31_clamped :
    iterOccurrencesMonthly c8rule ⟨2025, 1, 1⟩ ⟨2025, 3, 31⟩ =
      [⟨2025, 1, 31⟩, ⟨2025, 2, 28⟩, ⟨2025, 3, 31⟩] ∧
    (∀ (day fuel y m : Nat) (we d : PDate), d ∈ monthlyLoop day we fuel y m →
      d.day = min day (monthLength d.year d.month)) ∧
    (∀ (day fuel y m : Nat) (we : PDate),
      List.Chain' (fun a b => (b.year, b.month) = stepMonth a.year a.month)
        (monthlyLoop day we fuel y m)) :=
  ⟨by decide,
   fun day fuel y m we d hd => monthly_loop_clamped day we fuel y m d hd,
   fun day fuel y m we => monthly_loop_steps day we fuel y m⟩

/-- Witness for C8's universally quantified clamping part at a concrete
generated occurrence (February clamps day 31 down to 28). -/
theorem C8_monthly_day31_clamped_witness :
    (⟨2025, 2, 28⟩ : PDate) ∈ monthlyLoop 31 ⟨2025, 3, 31⟩ 24 2025 1 ∧
      (28 : Nat) = min 31 (monthLength 2025 2) :=
  ⟨by decide,
    C8_monthly_day31_clamped.2.1 31 24 2025 1 ⟨2025, 3, 31⟩ ⟨2025, 2, 28⟩ (by decide)⟩

theorem create_rule_ok_invariant (defaultCategoryId : Nat) (rules : List RecurringRule)
    (p : RecurringRuleCreate) (r : RecurringRule)
    (h : create_recurring_rule defaultCategoryId rules p = .ok (some r)) :
    ruleInvariant r := by
  unfold create_recurring_rule at h
  by_cases hvalid : recurringRuleCreateValid p = false
  · rw [if_pos hvalid] at h; exact absurd h (by simp)
  rw [if_neg hvalid] at h
  replace hvalid : recurringRuleCreateValid p = true := by
    cases hb : recurringRuleCreateValid p
    · exact absurd hb hvalid
    · rfl
  simp only [recurringRuleCreateValid, Bool.and_eq_true, Bool.or_eq_true] at hvalid
  by_cases htr : p.type = .TRANSFER
  · rw [if_pos htr] at h
    by_cases hc1 : truthyId p.counter_account_id = false
    · rw [if_pos hc1] at h; exact absurd h (by simp)
    rw [if_neg hc1] at h
    by_cases hc2 : p.category_id ≠ none
    · rw [if_pos hc2] at h; exact absurd h (by simp)
    rw [if_neg hc2] at h
    by_cases hc3 : p.is_variable_amount = true
    · rw [if_pos hc3] at h; exact absurd h (by simp)
    rw [if_neg hc3] at h
    by_cases hname : (pyStrip p.name).isEmpty = true
    · rw [if_pos hname] at h; exact absurd h (by simp)
    rw [if_neg hname] at h
    by_cases hex : (rules.find?
        (fun r => r.user_id == p.user_id && r.name == (pyStrip p.name))).isSome = true
    · rw [if_pos hex] at h; exact absurd h (by simp)
    rw [if_neg hex] at h
    have hr : ruleFromPayload defaultCategoryId p = r :=
      Option.some_injective _ (Except.ok.inj h)
    subst hr
    refine ⟨fun _ => ?_, fun hv => absurd hv hc3⟩
    rcases hvalid.2 with hv | hpos
    · exact absurd hv hc3
    · match hm : p.amount with
      | none => rw [hm] at hpos; simp at hpos
      | some a =>
        rw [hm] at hpos
        exact ⟨a, hm, by simpa using hpos⟩
  · rw [if_neg htr] at h
    by_cases hamt : p.amount = none ∧ p.is_variable_amount = false
    · rw [if_pos hamt] at h; exact absurd h (by simp)
    rw [if_neg hamt] at h
    by_cases hname : (pyStrip p.name).isEmpty = true
    · rw [if_pos hname] at h; exact absurd h (by simp)
    rw [if_neg hname] at h
    by_cases hex : (rules.find?
        (fun r => r.user_id == p.user_id && r.name == (pyStrip p.name))).isSome = true
    · rw [if_pos hex] at h; exact absurd h (by simp)
    rw [if_neg hex] at h
    have hr : ruleFromPayload defaultCategoryId p = r :=
      Option.some_injective _ (Except.ok.inj h)
    subst hr
    refine ⟨fun hnv => ?_, fun _ => htr⟩
    have hnv' : p.is_variable_amount = false := hnv
    rcases hvalid.2 with hv | hpos
    · rw [hnv'] at hv; simp at hv
    · match hm : p.amount with
      | none => rw [hm] at hpos; simp at hpos
      | some a =>
        rw [hm] at hpos
        exact ⟨a, hm, by simpa using hpos⟩

theorem create_rule_rejects_violation (defaultCategoryId : Nat)
    (rules : List RecurringRule) (p : RecurringRuleCreate)
    (hviol : (p.is_variable_amount = false ∧
        (p.amount = none ∨ ∃ a, p.amount = some a ∧ a ≤ 0)) ∨
      (p.is_variable_amount = true ∧ p.type = .TRANSFER)) :
    ∃ e, create_recurring_rule defaultCategoryId rules p = .error e := by
  unfold create_recurring_rule
  by_cases hvalid : recurringRuleCreateValid p = false
  · exact ⟨_, by rw [if_pos hvalid]⟩
  replace hvalid : recurringRuleCreateValid p = true := by
    cases hb : recurringRuleCreateValid p
    · exact absurd hb hvalid
    · rfl
  rcases hviol with ⟨hnv, hbad⟩ | ⟨hv, ht⟩
  · exfalso
    simp only [recurringRuleCreateValid, Bool.and_eq_true, Bool.or_eq_true] at hvalid
    rcases hvalid.2 with hv | hpos
    · rw [hnv] at hv; simp at hv
    · rcases hbad with hn | ⟨a, ha, hle⟩
      · rw [hn] at hpos; simp at hpos
      · rw [ha] at hpos
        simp only [decide_eq_true_eq] at hpos
        exact absurd hpos (not_lt.mpr hle)
  · rw [if_neg (by simp [hvalid]), if_pos ht]
    by_cases hc1 : truthyId p.counter_account_id = false
    · exact ⟨_, by rw [if_pos hc1]⟩
    · by_cases hc2 : p.category_id ≠ none
      · exact ⟨_, by rw [if_neg hc1, if_pos hc2]⟩
      · exact ⟨_, by rw [if_neg hc1, if_neg hc2, if_pos hv]⟩

theorem changesGet_eq_pickReq {α : Type} (field : Option (Option α)) (cur : α)
    (h : field ≠ some none) : changesGet field (some cur) = some (pickReq field cur) := by
  match field with
  | none => rfl
  | some none => exact absurd rfl h
  | some (some v) => rfl

theorem checkAmount_of_validate_ok (rule : RecurringRule) (u : RecurringRuleUpdate)
    (hv : _validate_recurring_update rule u = .ok ()) :
    _validate_recurring_update.checkAmount rule u = .ok () := by
  unfold _validate_recurring_update at hv
  by_cases ht : rule.type = .TRANSFER
  · rw [if_pos ht] at hv
    by_cases hc : truthyId (changesGet u.counter_account_id rule.counter_account_id) = false
    · rw [if_pos hc] at hv; exact absurd hv (by simp)
    rw [if_neg hc] at hv
    by_cases hcat : changesGet u.category_id rule.category_id ≠ none
    · rw [if_pos hcat] at hv; exact absurd hv (by simp)
    rw [if_neg hcat] at hv
    exact hv
  · rw [if_neg ht] at hv
    split at hv
    · split_ifs at hv
      exact hv
    · exact hv

theorem update_rule_ok_invariant (defaultCategoryId : Nat) (rule : RecurringRule)
    (u : RecurringRuleUpdate) (r : RecurringRule)
    (h : update_recurring_rule defaultCategoryId rule u = .ok r)
    (hne : updateEmpty u = false) :
    ruleInvariant r := by
  unfold update_recurring_rule at h
  by_cases h1 : recurringRuleUpdateValid u = false
  · rw [if_pos h1] at h; exact absurd h (by simp)
  rw [if_neg h1, if_neg (by simp [hne])] at h
  · match hv : _validate_recurring_update rule u with
    | .error e => rw [hv] at h; exact absurd h (by simp)
    | .ok () =>
      rw [hv] at h
      simp only at h
      have hvc := checkAmount_of_validate_ok rule u hv
      unfold _validate_recurring_update.checkAmount at hvc
      -- the category defaulting step leaves the variable/amount fields alone
      set u2 := withCategoryDefault defaultCategoryId rule u with hu2
      have hvarSame : u2.is_variable_amount = u.is_variable_amount := by
        rw [hu2]; unfold withCategoryDefault; split_ifs <;> rfl
      have hamtSame : u2.amount = u.amount := by
        rw [hu2]; unfold withCategoryDefault; split_ifs <;> rfl
      unfold applyRuleChanges at h
      by_cases hnn : notNullViolated u2 = true
      · rw [if_pos hnn] at h; exact absurd h (by simp)
      rw [if_neg hnn] at h
      · have hr := Except.ok.inj h
        have hnnvar : u.is_variable_amount ≠ some none := by
          intro hx
          apply hnn
          simp [notNullViolated, hvarSame, hx]
        have hvarPick : changesGet u.is_variable_amount (some rule.is_variable_amount) =
            some (pickReq u.is_variable_amount rule.is_variable_amount) :=
          changesGet_eq_pickReq _ _ hnnvar
        by_cases hvar : changesGet u.is_variable_amount (some rule.is_variable_amount) =
            some true
        · rw [if_pos hvar] at hvc
          have htr : rule.type ≠ .TRANSFER := by
            intro ht
            rw [if_pos ht] at hvc
            exact absurd hvc (by simp)
          have hpv : pickReq u.is_variable_amount rule.is_variable_amount = true := by
            have := hvarPick.symm.trans hvar
            simpa using this
          constructor
          · intro hfalse
            rw [← hr] at hfalse
            simp only [hvarSame] at hfalse
            rw [hpv] at hfalse
            simp at hfalse
          · intro _
            rw [← hr]
            exact htr
        · rw [if_neg hvar] at hvc
          have hpv : pickReq u.is_variable_amount rule.is_variable_amount = false := by
            by_cases hb : pickReq u.is_variable_amount rule.is_variable_amount = true
            · exact absurd (hvarPick.trans (by rw [hb])) hvar
            · simpa using hb
          split at hvc
          · exact absurd hvc (by simp)
          · rename_i a ham
            have hpos : ¬ a ≤ 0 := by
              by_cases hle : a ≤ 0
              · rw [if_pos hle] at hvc; exact absurd hvc (by simp)
              · exact hle
            constructor
            · intro _
              refine ⟨a, ?_, lt_of_not_le hpos⟩
              rw [← hr]
              simp only [hamtSame]
              exact ham
            · intro hvtrue
              exfalso
              rw [← hr] at hvtrue
              simp only [hvarSame] at hvtrue
              rw [hpv] at hvtrue
              simp at hvtrue

theorem update_rule_rejects_violation (defaultCategoryId : Nat) (rule : RecurringRule)
    (u : RecurringRuleUpdate)
    (hne : updateEmpty u = false)
    (hviol : (changesGet u.is_variable_amount (some rule.is_variable_amount) = some true ∧
        rule.type = .TRANSFER) ∨
      (changesGet u.is_variable_amount (some rule.is_variable_amount) ≠ some true ∧
        (changesGet u.amount rule.amount = none ∨
          ∃ a, changesGet u.amount rule.amount = some a ∧ a ≤ 0))) :
    ∃ e, update_recurring_rule defaultCategoryId rule u = .error e := by
  unfold update_recurring_rule
  by_cases h1 : recurringRuleUpdateValid u = true
  · rw [if_neg (by simp [h1]), if_neg (by simp [hne])]
    match hv : _validate_recurring_update rule u with
    | .error e => exact ⟨e, rfl⟩
    | .ok () =>
      exfalso
      have hvc := checkAmount_of_validate_ok rule u hv
      unfold _validate_recurring_update.checkAmount at hvc
      rcases hviol with ⟨hvar, ht⟩ | ⟨hvar, hbad⟩
      · rw [if_pos hvar, if_pos ht] at hvc
        exact absurd hvc (by simp)
      · rw [if_neg hvar] at hvc
        split at hvc
        · exact absurd hvc (by simp)
        · rename_i a2 ham
          rcases hbad with hn | ⟨a, ha, hle⟩
          · rw [hn] at ham; exact absurd ham (by simp)
          · rw [ha] at ham
            have haa : a = a2 := Option.some_injective _ ham
            rw [if_pos (haa ▸ hle)] at hvc
            exact absurd hvc (by simp)
  · exact ⟨_, by rw [if_pos (by simpa using h1)]⟩

/-- C9: every recurring rule accepted by rule creation or by a non-empty
rule update satisfies the data-model invariant (a non-variable rule has a
positive fixed amount; a variable-amount rule is not of transfer kind), and
a payload violating either condition is rejected with an error before any
mutation, so nothing is persisted. -/
theorem C9_recurring_rule_validation_invariant (defaultCategoryId : Nat)
    (rules : List RecurringRule) (p : RecurringRuleCreate)
    (rule : RecurringRule) (u : RecurringRuleUpdate) (r r2 : RecurringRule) :
    (create_recurring_rule defaultCategoryId rules p = .ok (some r) → ruleInvariant r) ∧
    ((p.is_variable_amount = false ∧
        (p.amount = none ∨ ∃ a, p.amount = some a ∧ a ≤ 0)) ∨
      (p.is_variable_amount = true ∧ p.type = .TRANSFER) →
      ∃ e, create_recurring_rule defaultCategoryId rules p = .error e) ∧
    (update_recurring_rule defaultCategoryId rule u = .ok r2 → updateEmpty u = false →
      ruleInvariant r2) ∧
    (updateEmpty u = false →
      (changesGet u.is_variable_amount (some rule.is_variable_amount) = some true ∧
          rule.type = .TRANSFER) ∨
        (changesGet u.is_variable_amount (some rule.is_variable_amount) ≠ some true ∧
          (changesGet u.amount rule.amount = none ∨
            ∃ a, changesGet u.amount rule.amount = some a ∧ a ≤ 0)) →
      ∃ e, update_recurring_rule defaultCategoryId rule u = .error e) :=
  ⟨fun h => create_rule_ok_invariant defaultCategoryId rules p r h,
   fun h => create_rule_rejects_violation defaultCategoryId rules p h,
   fun h hne => update_rule_ok_invariant defaultCategoryId rule u r2 h hne,
   fun hne h => update_rule_rejects_violation defaultCategoryId rule u hne h⟩

theorem C9_recurring_rule_validation_invariant_witness :
    (create_recurring_rule 7 [] c9goodPayload =
        .ok (some (ruleFromPayload 7 c9goodPayload)) ∧
      ruleInvariant (ruleFromPayload 7 c9goodPayload)) ∧
    (c9badPayload.is_variable_amount = true ∧ c9badPayload.type = .TRANSFER) ∧
    (∃ e, create_recurring_rule 7 [] c9badPayload = .error e) :=
  ⟨⟨by decide,
    (C9_recurring_rule_validation_invariant 7 [] c9goodPayload
        (ruleFromPayload 7 c9goodPayload) ⟨none, none, none, none, none, none, none,
          none, none, none, none, none, none⟩
        (ruleFromPayload 7 c9goodPayload) (ruleFromPayload 7 c9goodPayload)).1
      (by decide)⟩,
   ⟨rfl, rfl⟩,
   (C9_recurring_rule_validation_invariant 7 [] c9badPayload
        (ruleFromPayload 7 c9badPayload) ⟨none, none, none, none, none, none, none,
          none, none, none, none, none, none⟩
        (ruleFromPayload 7 c9badPayload) (ruleFromPayload 7 c9badPayload)).2.1
      (Or.inr ⟨rfl, rfl⟩)⟩

theorem recalc_after_flip (txns : List Txn) (cid : Nat) (s : CreditCardStatement)
    (hs : s.id = cid) :
    _recalculate_statement_total (flipPendingToCleared txns cid) s = 0 := by
  unfold _recalculate_statement_total flipPendingToCleared
  have hfil : ((txns.map (fun t =>
      if t.billing_cycle_id == some cid && t.status == TransactionStatus.PENDING_PAYMENT
      then { t with status := TransactionStatus.CLEARED } else t)).filter
        (fun t => t.billing_cycle_id == some s.id &&
          t.status == TransactionStatus.PENDING_PAYMENT)) = [] := by
    rw [List.filter_eq_nil]
    intro t ht
    obtain ⟨t0, _, ht0⟩ := List.mem_map.mp ht
    subst hs
    by_cases hc : (t0.billing_cycle_id == some s.id &&
        t0.status == TransactionStatus.PENDING_PAYMENT) = true
    · rw [if_pos hc] at ht0
      subst ht0
      simp
    · rw [if_neg hc] at ht0
      subst ht0
      simpa using hc
  rw [hfil]
  norm_num

theorem updateStatement_find (l : List CreditCardStatement) (i : Nat)
    (f : CreditCardStatement → CreditCardStatement) (s : CreditCardStatement)
    (hf : l.find? (fun x => x.id == i) = some s) (hid : (f s).id = s.id) :
    (updateStatement l i f).find? (fun x => x.id == i) = some (f s) := by
  induction l with
  | nil => simp [List.find?] at hf
  | cons x rest ih =>
    by_cases hx : x.id = i
    · have hbeq : (x.id == i) = true := by simp [hx]
      rw [List.find?] at hf
      rw [hbeq] at hf
      have hxs : x = s := Option.some_injective _ hf
      subst hxs
      simp only [updateStatement, if_pos hx, List.find?]
      have : ((f x).id == i) = true := by simp [hid, hx]
      rw [this]
    · have hbeq : (x.id == i) = false := by simp [hx]
      rw [List.find?] at hf
      rw [hbeq] at hf
      simp only [updateStatement, if_neg hx, List.find?, hbeq]
      exact ih hf

theorem settle_already_paid_conflict (db : SettleDB) (sid : Nat) (p : SettlePayload)
    (st : CreditCardStatement)
    (hfind : db.statements.find? (fun s => s.id == sid) = some st)
    (hpaid : st.status = .PAID) :
    settle_credit_card_statement db sid p = .error (409, "Statement already settled") := by
  unfold settle_credit_card_statement
  rw [hfind]
  simp only [hpaid, if_pos]

theorem settle_ok_paid_zero (db : SettleDB) (sid : Nat) (p : SettlePayload) (db' : SettleDB)
    (h : settle_credit_card_statement db sid p = .ok db') :
    ∃ st2, db'.statements.find? (fun s => s.id == sid) = some st2 ∧
      st2.status = .PAID ∧ st2.total_amount = 0 := by
  unfold settle_credit_card_statement at h
  split at h
  · exact absurd h (by simp)
  rename_i statement hfind
  have hsid : statement.id = sid := by
    have := List.find?_some hfind
    simpa using this
  split at h
  · exact absurd h (by simp)
  split at h
  · exact absurd h (by simp)
  rename_i account haccount
  split at h
  · exact absurd h (by simp)
  split at h
  · exact absurd h (by simp)
  split at h
  · exact absurd h (by simp)
  rename_i linked hlinked
  split at h
  · exact absurd h (by simp)
  split at h
  · exact absurd h (by simp)
  split at h
  · exact absurd h (by simp)
  rename_i currency hcurrency
  split at h
  · exact absurd h (by simp)
  split at h
  all_goals
    have hdb := Except.ok.inj h
    subst hdb
    rw [← hsid]
    rw [← hsid] at hfind
    exact ⟨_, updateStatement_find db.statements statement.id _ statement hfind rfl,
      rfl, recalc_after_flip _ statement.id _ rfl⟩

/-- C7: settling an already-paid statement fails with the 409 conflict and,
the check being raised before any mutation, changes no state; a successful
settlement leaves the statement paid with total zero; hence a second settle
call on the same statement necessarily fails with the conflict — settlement
is terminal. -/
theorem C7_settlement_conflict_terminal (db : SettleDB) (sid : Nat)
    (p p2 : SettlePayload) (db' : SettleDB) (st : CreditCardStatement) :
    (db.statements.find? (fun s => s.id == sid) = some st → st.status = .PAID →
      settle_credit_card_statement db sid p = .error (409, "Statement already settled")) ∧
    (settle_credit_card_statement db sid p = .ok db' →
      ∃ st2, db'.statements.find? (fun s => s.id == sid) = some st2 ∧
        st2.status = .PAID ∧ st2.total_amount = 0) ∧
    (settle_credit_card_statement db sid p = .ok db' →
      settle_credit_card_statement db' sid p2 =
        .error (409, "Statement already settled")) := by
  refine ⟨fun hf hp => settle_already_paid_conflict db sid p st hf hp,
    fun h => settle_ok_paid_zero db sid p db' h, fun h => ?_⟩
  obtain ⟨st2, hfind2, hpaid2, _⟩ := settle_ok_paid_zero db sid p db' h
  exact settle_already_paid_conflict db' sid p2 st2 hfind2 hpaid2

theorem ite_or {α : Type} (c : Prop) [Decidable c] {a b x y : α}
    (ha : a = x ∨ a = y) (hb : b = x ∨ b = y) :
    (if c then a else b) = x ∨ (if c then a else b) = y := by
  by_cases h : c
  · rw [if_pos h]; exact ha
  · rw [if_neg h]; exact hb

theorem decide_pair_direction_cases (f s : TransactionCreate) :
    _decide_pair_direction f s = (f, s) ∨ _decide_pair_direction f s = (s, f) := by
  unfold _decide_pair_direction
  dsimp only
  repeat' first
  | exact Or.inl rfl
  | exact Or.inr rfl
  | apply ite_or

theorem append_counter_suffix_nonempty (s : String) :
    (s ++ " (상대)").isEmpty = false := by
  have hne : (s ++ " (상대)") ≠ "" := by
    intro h
    have hd := congrArg String.data h
    rw [String.data_append] at hd
    simp at hd
  cases hb : (s ++ " (상대)").isEmpty
  · rfl
  · exact absurd (by simpa [String.isEmpty_iff] using hb) hne

/-- The metadata merges of `_build_pair` only touch the memo and category
fields, and they preserve the category group/name consistency invariant. -/
theorem merge_all_eq (b : TCBase) (i : TransactionCreate) :
    ∃ m cid g n, merge_all b i =
        { b with
          memo := m
          category_id := cid
          category_group_name := g
          category_name := n } ∧
      ((truthyStr b.category_group_name == truthyStr b.category_name) = true →
        (truthyStr g == truthyStr n) = true) := by
  unfold merge_all merge_memo merge_category_id merge_category_names
  split <;> split <;> split
  · rename_i h
    refine ⟨_, _, _, _, rfl, fun _ => ?_⟩
    simp only [Bool.and_eq_true] at h
    rw [h.1.2, h.2]
    rfl
  · exact ⟨_, _, _, _, rfl, fun hb => hb⟩
  · rename_i h
    refine ⟨_, _, _, _, rfl, fun _ => ?_⟩
    simp only [Bool.and_eq_true] at h
    rw [h.1.2, h.2]
    rfl
  · exact ⟨_, _, _, _, rfl, fun hb => hb⟩
  · rename_i h
    refine ⟨_, _, _, _, rfl, fun _ => ?_⟩
    simp only [Bool.and_eq_true] at h
    rw [h.1.2, h.2]
    rfl
  · exact ⟨_, _, _, _, rfl, fun hb => hb⟩
  · rename_i h
    refine ⟨_, _, _, _, rfl, fun _ => ?_⟩
    simp only [Bool.and_eq_true] at h
    rw [h.1.2, h.2]
    rfl
  · exact ⟨_, _, _, _, rfl, fun hb => hb⟩

/-- Rebuilding a transfer-typed base whose primary side is a nonzero
account id, whose counter id is absent and whose counter name is a nonempty
string always passes schema validation; the resulting record keeps
`to_account_id` empty and carries the counter name. -/
theorem reconstructTC_transfer_ok (b : TCBase) (a : Nat) (w : String)
    (hty : b.type = .TRANSFER)
    (hfrom : b.from_account_id = some a) (haz : a ≠ 0)
    (hto : b.to_account_id = none)
    (hcnt : b.counter_account_id = none)
    (htn : b.to_account_name = none)
    (hw : b.counter_account_name = some w) (hwne : w.isEmpty = false)
    (han : b.account_name = b.from_account_name)
    (hcur : (b.currency.length == 3) = true)
    (hcat : (truthyStr b.category_group_name == truthyStr b.category_name) = true)
    (hicc : b.is_card_charge = false) :
    ∃ c, reconstructTC b = .ok c ∧ c.type = .TRANSFER ∧ c.to_account_id = none ∧
      truthyStr c.to_account_name = true := by
  have haz' : (a != 0) = true := by simpa using haz
  unfold reconstructTC
  rw [hfrom, hto, hcnt, htn, hw, han, hty]
  rcases Bool.eq_false_or_eq_true (truthyStr b.from_account_name) with hfn | hfn <;>
    simp only [truthyId, truthyStr, haz', hwne, hfn, hcur, hcat, hicc, ne_eq,
      Bool.not_false, Bool.not_true, Bool.true_eq_false, Bool.false_eq_true,
      and_false, false_and, and_true, true_and, not_true, not_false_iff,
      if_false, if_true, ite_false, ite_true, validateTC]
  all_goals rw [if_pos (by simpa [truthyStr] using hcat)]
  all_goals exact ⟨_, rfl, rfl, rfl, by simp [truthyStr, hwne]⟩

/-- A validated payload carries a 3-letter currency. -/
theorem validateTC_currency (t : TransactionCreate) (h : validateTC t = true) :
    (t.currency.length == 3) = true := by
  unfold validateTC at h
  simp only [Bool.and_eq_true] at h
  exact h.1.1.1.1.1.1.1

/-- A validated transfer payload declares its category group and name
together or not at all. -/
theorem validateTC_transfer_cat (t : TransactionCreate) (h : validateTC t = true)
    (ht : t.type = .TRANSFER) :
    (truthyStr t.category_group_name == truthyStr t.category_name) = true := by
  unfold validateTC at h
  rw [ht] at h
  simp only [Bool.and_eq_true] at h
  have h5 := h.1.1.1.2
  simp only [Bool.or_eq_true, Bool.not_eq_true', Bool.and_eq_true] at h5
  rcases h5 with h5 | h5
  · cases h5
  · exact h5.2

/-- A validated transfer payload is never a card charge. -/
theorem validateTC_transfer_not_card (t : TransactionCreate) (h : validateTC t = true)
    (ht : t.type = .TRANSFER) : t.is_card_charge = false := by
  unfold validateTC at h
  rw [ht] at h
  simp only [Bool.and_eq_true] at h
  have h8 := h.2
  simp only [Bool.or_eq_true, Bool.not_eq_true', Bool.and_eq_true] at h8
  rcases h8 with h8 | h8
  · exact h8
  · cases h8.1

/-- Rebuilding after the metadata merges succeeds under the same conditions
as `reconstructTC_transfer_ok`: the merges only touch memo and category
data and preserve the category consistency. -/
theorem reconstruct_after_merge_ok (b : TCBase) (i : TransactionCreate) (a : Nat)
    (w : String)
    (hty : b.type = .TRANSFER)
    (hfrom : b.from_account_id = some a) (haz : a ≠ 0)
    (hto : b.to_account_id = none)
    (hcnt : b.counter_account_id = none)
    (htn : b.to_account_name = none)
    (hw : b.counter_account_name = some w) (hwne : w.isEmpty = false)
    (han : b.account_name = b.from_account_name)
    (hcur : (b.currency.length == 3) = true)
    (hcat : (truthyStr b.category_group_name == truthyStr b.category_name) = true)
    (hicc : b.is_card_charge = false) :
    ∃ c, reconstructTC { merge_all b i with transfer_flow := some Flow.OUT } = .ok c ∧
      c.type = .TRANSFER ∧ c.to_account_id = none ∧
      truthyStr c.to_account_name = true := by
  obtain ⟨m, cid, g, n, hmerge, hcatimp⟩ := merge_all_eq b i
  rw [hmerge]
  exact reconstructTC_transfer_ok _ a w hty hfrom haz hto hcnt htn hw hwne han hcur
    (hcatimp hcat) hicc

/-- Combining two transfer legs that share the same (nonzero) account id
and the same normalized account name, with no counter hints on either side,
always succeeds: the counter id stays empty and a placeholder counter name
is fabricated. -/
theorem build_pair_same_account_ok (o i : TransactionCreate) (a : Nat)
    (ho : validateTC o = true)
    (hot : o.type = .TRANSFER) (hit : i.type = .TRANSFER)
    (hao : o.from_account_id = some a) (hai : i.from_account_id = some a)
    (haz : a ≠ 0)
    (hco : o.to_account_id = none) (hci : i.to_account_id = none)
    (hno : o.to_account_name = none) (hni : i.to_account_name = none)
    (hnm : normalize_account_token o.from_account_name =
      normalize_account_token i.from_account_name) :
    ∃ c, _build_pair o i = .ok c ∧ c.type = .TRANSFER ∧ c.to_account_id = none ∧
      truthyStr c.to_account_name = true := by
  have hAo : o.account_id = some a := by
    simp [TransactionCreate.account_id, hot, hao]
  have hAi : i.account_id = some a := by
    simp [TransactionCreate.account_id, hit, hai]
  have hNo : o.account_name = o.from_account_name := by
    simp [TransactionCreate.account_name, hot]
  have hNi : i.account_name = i.from_account_name := by
    simp [TransactionCreate.account_name, hit]
  have hCo : o.counter_account_id = none := by
    simp [TransactionCreate.counter_account_id, hot, hco]
  have hCi : i.counter_account_id = none := by
    simp [TransactionCreate.counter_account_id, hit, hci]
  have hCNo : o.counter_account_name = none := by
    simp [TransactionCreate.counter_account_name, hot, hno]
  have hCNi : i.counter_account_name = none := by
    simp [TransactionCreate.counter_account_name, hit, hni]
  have haz' : (a != 0) = true := by simpa using haz
  have hcur := validateTC_currency o ho
  have hcato := validateTC_transfer_cat o ho hot
  have hicco := validateTC_transfer_not_card o ho hot
  unfold _build_pair
  dsimp only
  rcases hofn : o.from_account_name with _ | an <;>
    rcases hifn : i.from_account_name with _ | nm <;>
    rw [hofn, hifn] at hnm <;>
    simp only [hAo, hAi, hCo, hCi, hCNo, hCNi, hNo, hNi, hofn, hifn, dumpTC,
      truthyId, truthyStr, haz', normalize_account_ref, ← hnm,
      bne_self_eq_false, Bool.and_false, Bool.false_and, Bool.and_true,
      Bool.true_and, Bool.not_true, Bool.not_false, Bool.false_eq_true,
      Bool.true_eq_false, if_false, if_true, ite_false, ite_true]
  · exact reconstruct_after_merge_ok _ i a "None (상대)" hot hao haz hco rfl hno rfl
      (by decide) rfl hcur hcato hicco
  · exact reconstruct_after_merge_ok _ i a "None (상대)" hot hao haz hco rfl hno rfl
      (by decide) rfl hcur hcato hicco
  · exact reconstruct_after_merge_ok _ i a (an ++ " (상대)") hot hao haz hco rfl hno
      rfl (append_counter_suffix_nonempty an) rfl hcur hcato hicco
  · exact reconstruct_after_merge_ok _ i a (an ++ " (상대)") hot hao haz hco rfl hno
      rfl (append_counter_suffix_nonempty an) rfl hcur hcato hicco

/-- C6 counterexample: two valid transfer candidates that share the single
account identity (id 10, same name) and declare no counter identity at all
— so no distinguishable counter identity can be derived from them — are
NOT returned as two unpaired leftovers: `_pair_two_entries` silently
combines them into one auto-paired record with an empty counter account id
(the amended theorem's witness adds that its counter account name is a
fabricated nonempty placeholder). -/
theorem C6_same_account_legs_silently_combined :
    validateTC c6out = true ∧ validateTC c6in = true ∧
    c6out.counter_account_id = none ∧ c6out.counter_account_name = none ∧
    c6in.counter_account_id = none ∧ c6in.counter_account_name = none ∧
    c6out.account_id = c6in.account_id ∧
    (_pair_two_entries c6out c6in).2 = [] ∧
    ((_pair_two_entries c6out c6in).1.map
        (fun p => (p.1.counter_account_id, p.2))) = [(none, true)] := by
  decide

/-- C6 (amended): for two valid transfer candidates from which no
distinguishable counter identity can be derived — no counter account id or
name on either leg, both legs on the same nonzero account id with the same
normalized account name — pairing does NOT fall back to leftovers: the two
legs are always combined into a single auto-paired transfer record whose
counter account id stays empty and whose counter account name is a
fabricated nonempty placeholder. -/
theorem C6_no_counter_identity_still_combines (e1 e2 : TransactionCreate) (a : Nat)
    (h1 : validateTC e1 = true) (h2 : validateTC e2 = true)
    (ht1 : e1.type = .TRANSFER) (ht2 : e2.type = .TRANSFER)
    (ha1 : e1.from_account_id = some a) (ha2 : e2.from_account_id = some a)
    (haz : a ≠ 0)
    (hc1 : e1.to_account_id = none) (hc2 : e2.to_account_id = none)
    (hn1 : e1.to_account_name = none) (hn2 : e2.to_account_name = none)
    (hnm : normalize_account_token e1.from_account_name =
      normalize_account_token e2.from_account_name) :
    ∃ c, _pair_two_entries e1 e2 = ([(c, true)], []) ∧
      c.counter_account_id = none ∧ truthyStr c.counter_account_name = true := by
  unfold _pair_two_entries
  rcases decide_pair_direction_cases e1 e2 with hd | hd <;> rw [hd] <;> dsimp only
  · obtain ⟨c, hc, hcty, hcid, hcnm⟩ :=
      build_pair_same_account_ok e1 e2 a h1 ht1 ht2 ha1 ha2 haz hc1 hc2 hn1 hn2 hnm
    rw [hc]
    refine ⟨c, rfl, ?_, ?_⟩
    · simpa [TransactionCreate.counter_account_id, hcty] using hcid
    · simpa [TransactionCreate.counter_account_name, hcty] using hcnm
  · obtain ⟨c, hc, hcty, hcid, hcnm⟩ :=
      build_pair_same_account_ok e2 e1 a h2 ht2 ht1 ha2 ha1 haz hc2 hc1 hn2 hn1 hnm.symm
    rw [hc]
    refine ⟨c, rfl, ?_, ?_⟩
    · simpa [TransactionCreate.counter_account_id, hcty] using hcid
    · simpa [TransactionCreate.counter_account_name, hcty] using hcnm

/-- Witness for the amended C6 theorem at the concrete same-account legs. -/
theorem C6_no_counter_identity_still_combines_witness :
    ∃ c, _pair_two_entries c6out c6in = ([(c, true)], []) ∧
      c.counter_account_id = none ∧ truthyStr c.counter_account_name = true :=
  C6_no_counter_identity_still_combines c6out c6in 10 (by decide) (by decide) rfl rfl
    rfl rfl (by decide) rfl rfl rfl rfl rfl

/-- Rebuilding keeps the base's amount, transfer flow, type, user and
external id unchanged. -/
theorem reconstructTC_ok_fields (b : TCBase) (c : TransactionCreate)
    (h : reconstructTC b = .ok c) :
    c.amount = b.amount ∧ c.transfer_flow = b.transfer_flow ∧
    c.type = b.type ∧ c.user_id = b.user_id ∧ c.external_id = b.external_id := by
  unfold reconstructTC at h
  dsimp only at h
  repeat' split at h
  all_goals cases h
  all_goals exact ⟨rfl, rfl, rfl, rfl, rfl⟩

/-- A combined record built by `_build_pair` stores the outgoing leg's
amount as a forced negative, is flagged as the OUT direction, and keeps the
outgoing leg's type, user and external id. -/
theorem build_pair_fields (o i c : TransactionCreate)
    (h : _build_pair o i = .ok c) :
    c.amount = -|o.amount| ∧ c.transfer_flow = some Flow.OUT ∧
    c.type = o.type ∧ c.user_id = o.user_id ∧ c.external_id = o.external_id := by
  unfold _build_pair at h
  dsimp only at h
  split at h
  all_goals
    obtain ⟨ha, hf, ht, hu, he⟩ := reconstructTC_ok_fields _ _ h
    obtain ⟨m, cid, g, n, hmerge, -⟩ := merge_all_eq _ i
    rw [hmerge] at ha hf ht hu he
    exact ⟨ha, hf, ht, hu, he⟩

/-- C1 (amended), covering both entry modes and the canonical combined
record: (i) a directly entered transfer with a distinct counter account
persists two legs with amounts `-abs(a)` and `abs(a)`, whose sum is zero;
(ii) its balance-delta journal sums to zero, and is exactly
`[(out, -abs(a)), (in, abs(a))]` when the record is not effectively
neutral (and empty when it is); (iii) an auto-paired transfer persists ONE
canonical row with amount `-abs(a)` (flow OUT), and its two balance deltas
on the distinct accounts still sum to zero; (iv) a combined record built by
auto-pairing stores amount `-abs(out.amount)` with flow OUT. -/
theorem C1_transfer_legs_and_deltas (accounts : List Account) (base : Txn)
    (account_id counter_account_id : Nat) (amount : ℤ) (group_id : Nat) :
    ((create_transfer_pair accounts base account_id counter_account_id amount
        group_id).rows.map Txn.amount = [-|amount|, |amount|] ∧
      ((create_transfer_pair accounts base account_id counter_account_id amount
        group_id).rows.map Txn.amount).sum = 0) ∧
    (((create_transfer_pair accounts base account_id counter_account_id amount
        group_id).journal.map Prod.snd).sum = 0 ∧
      (base.is_balance_neutral = false → base.exclude_from_reports = false →
        (create_transfer_pair accounts base account_id counter_account_id amount
          group_id).journal =
          [(account_id, -|amount|), (counter_account_id, |amount|)])) ∧
    (∀ r, counter_account_id ≠ 0 → counter_account_id ≠ account_id →
      create_transfer_auto accounts base account_id (some counter_account_id)
          (some Flow.OUT) amount = .ok r →
      r.rows.map Txn.amount = [-|amount|] ∧
        (r.journal.map Prod.snd).sum = 0) ∧
    (∀ o i c, _build_pair o i = .ok c →
      c.amount = -|o.amount| ∧ c.transfer_flow = some Flow.OUT) := by
  refine ⟨⟨?_, ?_⟩, ⟨?_, ?_⟩, ?_,
    fun o i c h => ⟨(build_pair_fields o i c h).1, (build_pair_fields o i c h).2.1⟩⟩
  · by_cases hn : (base.is_balance_neutral || base.exclude_from_reports) = true <;>
      simp [create_transfer_pair, hn]
  · by_cases hn : (base.is_balance_neutral || base.exclude_from_reports) = true <;>
      simp [create_transfer_pair, hn]
  · by_cases hn : (base.is_balance_neutral || base.exclude_from_reports) = true <;>
      simp [create_transfer_pair, hn]
  · intro h1 h2
    simp [create_transfer_pair, h1, h2]
  · intro r hc0 hca h
    have hct : truthyId (some counter_account_id) = true := by
      simpa [truthyId] using hc0
    unfold create_transfer_auto at h
    rw [hct] at h
    simp only [Bool.true_eq_false, if_false, ite_false, reduceCtorEq] at h
    rw [Except.ok.injEq] at h
    subst h
    refine ⟨by simp, ?_⟩
    simp [single_transfer_deltas, hc0, hca]

/-- Witness for the amended C1 theorem at the concrete scenario: two
deposit accounts, a 45000 transfer. -/
theorem C1_transfer_legs_and_deltas_witness :
    ((create_transfer_pair c1accounts c1base 1 2 (-45000) 1).rows.map Txn.amount =
        [-45000, 45000] ∧
      (create_transfer_pair c1accounts c1base 1 2 (-45000) 1).journal =
        [(1, -45000), (2, 45000)]) ∧
    ((create_transfer_auto c1accounts c1base 1 (some 2) (some Flow.OUT)
        (-45000)).map (fun r => r.rows.map Txn.amount) = .ok [-45000]) := by
  have h := C1_transfer_legs_and_deltas c1accounts c1base 1 2 (-45000) 1
  refine ⟨⟨?_, h.2.1.2 rfl rfl⟩, by decide⟩
  have := h.1.1
  simpa using this

/-- C1 counterexample: a transfer produced by auto-pairing does NOT persist
two legs — the `auto_transfer_match` branch persists exactly one canonical
row (amount `-abs(a)`), applying the two opposite balance deltas to the two
accounts instead. -/
theorem C1_auto_match_persists_single_row :
    ((create_transfer_auto c1accounts c1base 1 (some 2) (some Flow.OUT)
        (-45000)).map
      (fun r => (r.rows.length, r.rows.map Txn.amount,
        r.journal, (r.journal.map Prod.snd).sum))) =
      .ok (1, [-45000], [(1, -45000), (2, 45000)], 0) := by
  decide

/-- C10: a bulk-ingestion transfer candidate with neither a counter account
id nor a counter account name gets the balance-neutral flag from
`_create_transactions`; the single row `create_transaction` then persists
for it is marked balance-neutral, its delta journal is empty, and the
account table is unchanged. -/
theorem C10_leftover_transfer_balance_neutral (accounts : List Account)
    (base : Txn) (item : TransactionCreate) (account_id : Nat) (amount : ℤ)
    (ht : item.type = .TRANSFER)
    (hci : truthyId item.counter_account_id = false)
    (hcn : truthyStr item.counter_account_name = false) :
    bulk_balance_neutral item = true ∧
    (create_transfer_single accounts
        (fold_balance_neutral base (bulk_balance_neutral item)) account_id
        amount).rows.map Txn.is_balance_neutral = [true] ∧
    (create_transfer_single accounts
        (fold_balance_neutral base (bulk_balance_neutral item)) account_id
        amount).journal = [] ∧
    (create_transfer_single accounts
        (fold_balance_neutral base (bulk_balance_neutral item)) account_id
        amount).accounts = accounts := by
  have hbn : bulk_balance_neutral item = true := by
    simp [bulk_balance_neutral, ht, hci, hcn]
  refine ⟨hbn, ?_, ?_, ?_⟩ <;>
    simp [create_transfer_single, fold_balance_neutral, hbn, apply_journal]

/-- Witness for C10 at a concrete leftover leg (the same-account transfer
candidate) over the concrete account table. -/
theorem C10_leftover_transfer_balance_neutral_witness :
    bulk_balance_neutral c6out = true ∧
    (create_transfer_single c1accounts
        (fold_balance_neutral c1base (bulk_balance_neutral c6out)) 1
        (-50000)).rows.map Txn.is_balance_neutral = [true] ∧
    (create_transfer_single c1accounts
        (fold_balance_neutral c1base (bulk_balance_neutral c6out)) 1
        (-50000)).journal = [] ∧
    (create_transfer_single c1accounts
        (fold_balance_neutral c1base (bulk_balance_neutral c6out)) 1
        (-50000)).accounts = c1accounts :=
  C10_leftover_transfer_balance_neutral c1accounts c1base c6out 1 (-50000)
    rfl (by decide) (by decide)

/-- C5 (amended): the cross-batch matcher accepts an existing row if and
only if the candidate's amount is nonzero, the two amounts are NOT both
strictly positive and NOT both strictly negative (opposite signs OR a
zero-amount existing row), the absolute-amount difference is within the
tolerance, the time difference is within the window whenever both sides
carry a time, and either a strong counter/account identity match holds or
— with no counter identity on either side and both account identities
present — the two account identities differ.  A matching still-unpaired
transfer-like candidate is dropped from creation (counted) and the
persisted rows are returned unchanged; a non-matching or non-transfer-like
candidate is kept. -/
theorem C5_db_match_iff_and_drop (amount_tolerance : ℤ)
    (time_tolerance_seconds : Nat) (new : TransactionCreate) (ex : Txn)
    (user_id : Nat) (txns : List Txn) :
    (_is_match amount_tolerance time_tolerance_seconds new ex = true ↔
      (new.amount ≠ 0 ∧
       ¬((new.amount > 0 ∧ ex.amount > 0) ∨ (new.amount < 0 ∧ ex.amount < 0)) ∧
       |(|new.amount| - |ex.amount|)| ≤ amount_tolerance ∧
       _time_close time_tolerance_seconds new.occurred_time ex.occurred_time = true ∧
       (matchStrong new ex = true ∨ matchWeak new ex = true))) ∧
    (_apply_db_transfer_matches user_id txns [(new, false)] amount_tolerance
        time_tolerance_seconds =
      if is_transfer_like new = true ∧
          ((_query_candidates user_id txns new).find?
            (fun e => _is_match amount_tolerance time_tolerance_seconds new e)).isSome
      then ([], 1) else ([(new, false)], 0)) := by
  constructor
  · unfold _is_match
    split_ifs with h1 h2 h3 h4 h5 h6 <;>
      simp_all [not_lt, Bool.not_eq_true]
  · unfold _apply_db_transfer_matches foldl_filter
    simp only [List.foldl_cons, List.foldl_nil]
    by_cases hc : db_match_hit user_id txns amount_tolerance
        time_tolerance_seconds (new, false) = true
    · rw [if_pos hc]
      have hcond : is_transfer_like new = true ∧
          ((_query_candidates user_id txns new).find?
            (fun e => _is_match amount_tolerance time_tolerance_seconds new e)).isSome := by
        simpa [db_match_hit] using hc
      rw [if_pos hcond]
    · rw [if_neg hc]
      rw [if_neg (fun hcond => hc (by simp [db_match_hit, hcond.1, hcond.2]))]
      rfl

/-- C5 counterexample: the candidate (+1) and the persisted zero-amount row
do NOT have opposite signs, yet the matcher accepts them (the sign gate
only rejects two strictly-positive or two strictly-negative amounts, and
|1 - 0| is within the default tolerance 2), and the candidate is dropped
from creation. -/
theorem C5_zero_amount_match_counterexample :
    c5ex.amount = 0 ∧
    ¬((c5new.amount > 0 ∧ c5ex.amount < 0) ∨
      (c5new.amount < 0 ∧ c5ex.amount > 0)) ∧
    _is_match 2 60 c5new c5ex = true ∧
    _apply_db_transfer_matches 1 [c5ex] [(c5new, false)] 2 60 = ([], 1) := by
  refine ⟨rfl, by decide, by decide, by decide⟩

/-- C4 counterexample: re-submitting the same 3-candidate batch creates
zero new rows (the state is unchanged), but the second call does NOT
return the rows created by the first call: candidate C is dropped by the
cross-batch DB matcher (counted in the match count) before the external-id
stage can collect its row, so the second call returns only row 1 while the
first call created rows 1 and 2. -/
theorem C4_second_call_returns_strict_subset :
    c4run1.toOption ≠ none ∧ c4run2.toOption ≠ none ∧
    c4ret1.map Txn.id = [1, 2] ∧
    c4ret2.map Txn.id = [1] ∧
    c4db2 = c4db1 ∧
    (c4run2.toOption.map (fun r => r.2.2)) = some 1 ∧
    c4ret2 ≠ c4ret1 := by
  decide

theorem foldl_filter_aux {α : Type} (C : α → Bool) (l : List α) :
    ∀ acc : List α × Nat,
      l.foldl (fun acc x => if C x then (acc.1, acc.2 + 1)
        else (acc.1 ++ [x], acc.2)) acc =
      (acc.1 ++ l.filter (fun x => !C x), acc.2 + (l.filter C).length) := by
  induction l with
  | nil => intro acc; simp
  | cons x xs ih =>
    intro acc
    simp only [List.foldl_cons]
    by_cases h : C x = true
    · rw [if_pos h, ih]
      simp [List.filter_cons, h]
      omega
    · have h' : C x = false := by
        cases hc : C x
        · rfl
        · exact absurd hc h
      rw [if_neg h, ih]
      simp [List.filter_cons, h']

/-- A dropping pass keeps exactly the non-hit items and counts the hits. -/
theorem foldl_filter_eq {α : Type} (C : α → Bool) (l : List α) :
    foldl_filter C l = (l.filter (fun x => !C x), (l.filter C).length) := by
  unfold foldl_filter
  simpa using foldl_filter_aux C l ([], 0)

theorem foldl_filter_mem {α : Type} (C : α → Bool) (l : List α) (x : α)
    (hx : x ∈ (foldl_filter C l).1) : x ∈ l := by
  rw [foldl_filter_eq] at hx
  exact (List.mem_filter.mp hx).1

theorem foldl_filter_id {α : Type} (C : α → Bool) (l : List α)
    (h : ∀ x ∈ l, C x = false) : foldl_filter C l = (l, 0) := by
  rw [foldl_filter_eq,
    List.filter_eq_self.mpr (fun x hx => by simp [h x hx]),
    List.filter_eq_nil_iff.mpr (fun x hx => by simp [h x hx])]
  rfl

theorem foldl_filter_all {α : Type} (C : α → Bool) (l : List α)
    (h : ∀ x ∈ l, C x = true) : (foldl_filter C l).1 = [] := by
  rw [foldl_filter_eq]
  exact List.filter_eq_nil_iff.mpr (fun x hx => by simp [h x hx])

/-- The cross-batch matcher is the identity when there are no persisted
rows. -/
theorem db_matches_nil_txns (u : Nat) (items : List (TransactionCreate × Bool))
    (t : ℤ) (s : Nat) :
    _apply_db_transfer_matches u [] items t s = (items, 0) := by
  unfold _apply_db_transfer_matches
  refine foldl_filter_id _ _ (fun ib _ => ?_)
  simp [db_match_hit, _query_candidates]

/-- Every candidate the cross-batch matcher keeps comes from its input. -/
theorem db_matches_mem (u : Nat) (txns : List Txn)
    (items : List (TransactionCreate × Bool)) (t : ℤ) (s : Nat)
    (p : TransactionCreate × Bool)
    (hp : p ∈ (_apply_db_transfer_matches u txns items t s).1) : p ∈ items :=
  foldl_filter_mem _ items p hp

/-- The external-id filter is the identity when there are no persisted
rows. -/
theorem ext_filter_nil_txns (u : Nat)
    (items : List (TransactionCreate × Bool)) :
    _filter_existing_by_external_id u [] items = (items, 0, []) := by
  unfold _filter_existing_by_external_id
  dsimp only
  split_ifs with h1 h2
  · rfl
  · rfl
  · exact absurd rfl h2

/-- The natural-duplicate filter is the identity when there are no
persisted rows. -/
theorem natural_filter_nil_txns (u : Nat) (db : BulkDB)
    (hdb : db.txns = []) (items : List (TransactionCreate × Bool)) :
    _filter_natural_duplicates u db items = (items, 0) := by
  unfold _filter_natural_duplicates
  refine foldl_filter_id _ _ (fun ib _ => ?_)
  unfold natural_dup_hit
  split_ifs with h1
  · rfl
  · cases natural_resolved_account u db ib.1 with
    | none => rfl
    | some aid => simp [hdb]

/-- The settlement filter keeps every non-settlement item. -/
theorem settlement_filter_passthrough (db : BulkDB)
    (items : List (TransactionCreate × Bool))
    (h : ∀ ib ∈ items, ib.1.type = .TRANSFER) :
    _filter_settlement_duplicates db items = (items, 0) := by
  unfold _filter_settlement_duplicates
  refine foldl_filter_id _ _ (fun ib hib => ?_)
  simp [settlement_dup_hit, h ib hib]

/-- Normalization only overrides the user id. -/
theorem normalize_props (items : List TransactionCreate) (u : Nat)
    (htype : ∀ i ∈ items, i.type = .TRANSFER)
    (hext : ∀ i ∈ items, truthyStr i.external_id = true) :
    ∀ x ∈ _normalize_items items u,
      x.user_id = u ∧ x.type = .TRANSFER ∧ truthyStr x.external_id = true := by
  intro x hx
  unfold _normalize_items at hx
  rcases List.mem_map.mp hx with ⟨i, hi, hxi⟩
  by_cases hu : i.user_id ≠ u
  · rw [if_pos hu] at hxi
    subst hxi
    exact ⟨rfl, htype i hi, hext i hi⟩
  · rw [if_neg hu] at hxi
    subst hxi
    push_neg at hu
    exact ⟨hu, htype i hi, hext i hi⟩

theorem mem_insertByAbs (e x : TransactionCreate) (l : List TransactionCreate) :
    x ∈ insertByAbs e l ↔ x = e ∨ x ∈ l := by
  induction l with
  | nil => simp [insertByAbs]
  | cons y ys ih =>
    unfold insertByAbs
    split_ifs with h
    · simp only [List.mem_cons, ih] <;> tauto
    · simp only [List.mem_cons] <;> tauto

theorem mem_sortByAbsAmount_aux (entries : List TransactionCreate) :
    ∀ (acc : List TransactionCreate) (x : TransactionCreate),
      x ∈ entries.foldl (fun acc e => insertByAbs e acc) acc ↔
        x ∈ acc ∨ x ∈ entries := by
  induction entries with
  | nil => intro acc x; simp
  | cons e es ih =>
    intro acc x
    simp only [List.foldl_cons]
    rw [ih]
    simp only [mem_insertByAbs, List.mem_cons]
    tauto

/-- The sorted pool has exactly the batch's entries. -/
theorem mem_sortByAbsAmount (entries : List TransactionCreate)
    (x : TransactionCreate) :
    x ∈ sortByAbsAmount entries ↔ x ∈ entries := by
  unfold sortByAbsAmount
  rw [mem_sortByAbsAmount_aux]
  simp

theorem mem_of_getElem_opt {α : Type} (l : List α) (i : Nat) (a : α)
    (h : l[i]? = some a) : a ∈ l := by
  rw [List.getElem?_eq_some] at h
  obtain ⟨h1, h2⟩ := h
  exact h2 ▸ List.getElem_mem h1

/-- What one loop iteration can add: an auto pair combined (by
`_build_pair`) from two pool entries, or leftovers from the pool. -/
theorem tolerance_step_mem (t : ℤ) (pool : List TransactionCreate) (i : Nat)
    (used : List Bool) (pairs : List (TransactionCreate × Bool))
    (leftovers : List TransactionCreate)
    (hp : ∀ p ∈ pairs, p.2 = true ∧ ∃ o ie, o ∈ pool ∧ ie ∈ pool ∧
      _build_pair o ie = .ok p.1)
    (hl : ∀ l ∈ leftovers, l ∈ pool) :
    (∀ p ∈ (tolerance_step t pool i used pairs leftovers).2.1,
      p.2 = true ∧ ∃ o ie, o ∈ pool ∧ ie ∈ pool ∧
        _build_pair o ie = .ok p.1) ∧
    (∀ l ∈ (tolerance_step t pool i used pairs leftovers).2.2, l ∈ pool) := by
  unfold tolerance_step
  cases hgi : pool[i]? with
  | none => exact ⟨hp, hl⟩
  | some entry_a =>
    dsimp only
    have ha : entry_a ∈ pool := mem_of_getElem_opt pool i entry_a hgi
    by_cases hu : used.getD i false = true
    · rw [if_pos hu]
      exact ⟨hp, hl⟩
    · rw [if_neg hu]
      cases hb : _find_best_match t entry_a pool used i with
      | none =>
        refine ⟨hp, fun l hml => ?_⟩
        rcases List.mem_append.mp hml with h1 | h1
        · exact hl l h1
        · simp at h1
          exact h1 ▸ ha
      | some j =>
        dsimp only
        have hbmem : (pool[j]?).getD entry_a ∈ pool := by
          cases hgj : pool[j]? with
          | none => simpa using ha
          | some b => simpa using mem_of_getElem_opt pool j b hgj
        rcases decide_pair_direction_cases entry_a ((pool[j]?).getD entry_a)
          with hd | hd <;>
          rw [hd] <;> dsimp only <;>
          [skip; skip] <;>
        · split
          · rename_i combined hbp
            refine ⟨fun p hmp => ?_, hl⟩
            rcases List.mem_append.mp hmp with h1 | h1
            · exact hp p h1
            · simp at h1
              subst h1
              first
              | exact ⟨rfl, entry_a, _, ha, hbmem, hbp⟩
              | exact ⟨rfl, _, entry_a, hbmem, ha, hbp⟩
          · refine ⟨hp, fun l hml => ?_⟩
            rcases List.mem_append.mp hml with h1 | h1
            · exact hl l h1
            · simp only [List.mem_cons, List.not_mem_nil, or_false] at h1
              rcases h1 with h1 | h1
              · exact h1 ▸ ha
              · exact h1 ▸ hbmem

/-- What the tolerance loop can add: auto pairs combined (by `_build_pair`)
from two pool entries, and leftovers from the pool. -/
theorem tolerance_loop_mem (t : ℤ) (pool : List TransactionCreate) :
    ∀ (fuel i : Nat) (used : List Bool)
      (pairs : List (TransactionCreate × Bool))
      (leftovers : List TransactionCreate)
      (hp : ∀ p ∈ pairs, p.2 = true ∧ ∃ o ie, o ∈ pool ∧ ie ∈ pool ∧
        _build_pair o ie = .ok p.1)
      (hl : ∀ l ∈ leftovers, l ∈ pool),
      (∀ p ∈ (tolerance_loop t pool fuel i used pairs leftovers).1,
        p.2 = true ∧ ∃ o ie, o ∈ pool ∧ ie ∈ pool ∧
          _build_pair o ie = .ok p.1) ∧
      (∀ l ∈ (tolerance_loop t pool fuel i used pairs leftovers).2.1,
        l ∈ pool) := by
  intro fuel
  induction fuel with
  | zero => intro i used pairs leftovers hp hl; exact ⟨hp, hl⟩
  | succ fuel ih =>
    intro i used pairs leftovers hp hl
    unfold tolerance_loop
    cases hgi : pool[i]? with
    | none => exact ⟨hp, hl⟩
    | some entry_a =>
      dsimp only
      obtain ⟨hp', hl'⟩ := tolerance_step_mem t pool i used pairs leftovers hp hl
      exact ih (i + 1) _ _ _ hp' hl'

theorem enum_snd_mem {α : Type} (l : List α) (je : Nat × α) (h : je ∈ l.enum) :
    je.2 ∈ l := by
  have := List.mem_map_of_mem Prod.snd h
  rwa [List.enum_map_snd] at this

theorem leftover_fold_mem (used : List Bool) :
    ∀ (enumList : List (Nat × TransactionCreate))
      (lf : List TransactionCreate) (x : TransactionCreate),
      x ∈ enumList.foldl (fun lf je =>
        if used.getD je.1 false = false ∧ lf.contains je.2 = false
        then lf ++ [je.2] else lf) lf →
      x ∈ lf ∨ ∃ je ∈ enumList, x = je.2 := by
  intro enumList
  induction enumList with
  | nil => intro lf x hx; exact Or.inl hx
  | cons je rest ih =>
    intro lf x hx
    simp only [List.foldl_cons] at hx
    by_cases hc : used.getD je.1 false = false ∧ lf.contains je.2 = false
    · rw [if_pos hc] at hx
      rcases ih _ x hx with h1 | h1
      · rcases List.mem_append.mp h1 with h2 | h2
        · exact Or.inl h2
        · simp at h2
          exact Or.inr ⟨je, List.mem_cons_self je rest, h2⟩
      · rcases h1 with ⟨je', hje', hx'⟩
        exact Or.inr ⟨je', List.mem_cons_of_mem je hje', hx'⟩
    · rw [if_neg hc] at hx
      rcases ih _ x hx with h1 | h1
      · exact Or.inl h1
      · rcases h1 with ⟨je', hje', hx'⟩
        exact Or.inr ⟨je', List.mem_cons_of_mem je hje', hx'⟩

/-- Every pair returned by the tolerance pairing is combined from two
batch entries; every leftover is a batch entry. -/
theorem pair_tolerance_mem (t : ℤ) (entries : List TransactionCreate) :
    (∀ p ∈ (pair_transfers_with_tolerance t entries).1, p.2 = true ∧
      ∃ o ie, o ∈ entries ∧ ie ∈ entries ∧ _build_pair o ie = .ok p.1) ∧
    (∀ l ∈ (pair_transfers_with_tolerance t entries).2, l ∈ entries) := by
  cases entries with
  | nil => exact ⟨fun p hp => by simp [pair_transfers_with_tolerance] at hp,
      fun l hl => by simp [pair_transfers_with_tolerance] at hl⟩
  | cons e es =>
    obtain ⟨hp, hl⟩ := tolerance_loop_mem t (sortByAbsAmount (e :: es))
      (sortByAbsAmount (e :: es)).length 0
      (List.replicate (sortByAbsAmount (e :: es)).length false) [] []
      (fun p hp => by simp at hp) (fun l hl => by simp at hl)
    constructor
    · intro p hmp
      have hmp' : p ∈ (tolerance_loop t (sortByAbsAmount (e :: es))
          (sortByAbsAmount (e :: es)).length 0
          (List.replicate (sortByAbsAmount (e :: es)).length false) [] []).1 := hmp
      obtain ⟨hb, o, ie, ho, hie, hok⟩ := hp p hmp'
      exact ⟨hb, o, ie, (mem_sortByAbsAmount _ o).mp ho,
        (mem_sortByAbsAmount _ ie).mp hie, hok⟩
    · intro l hml
      have hml' := leftover_fold_mem _ _ _ l hml
      rcases hml' with h1 | h1
      · exact (mem_sortByAbsAmount _ l).mp (hl l h1)
      · rcases h1 with ⟨je, hje, hx⟩
        exact (mem_sortByAbsAmount _ l).mp (hx ▸ enum_snd_mem _ je hje)

/-- A truthy optional string is a nonempty string. -/
theorem truthyStr_some (o : Option String) (h : truthyStr o = true) :
    ∃ e, o = some e ∧ e.isEmpty = false := by
  cases o with
  | none => simp [truthyStr] at h
  | some s =>
    refine ⟨s, rfl, ?_⟩
    simp only [truthyStr, Bool.not_eq_true'] at h
    exact h

/-- Account lookup-or-creation never touches the transaction rows. -/
theorem get_or_create_txns (db : BulkDB) (u : Nat) (nm : String) :
    (get_or_create_account_by_name db u nm).2.txns = db.txns := by
  unfold get_or_create_account_by_name
  split <;> rfl

/-- Counter-account resolution never touches the transaction rows. -/
theorem resolve_counter_txns (db : BulkDB) (p : TransactionCreate) :
    (resolve_counter db p).2.txns = db.txns := by
  unfold resolve_counter
  dsimp only
  split_ifs with h
  · exact get_or_create_txns db p.user_id (p.counter_account_name.getD "")
  · rfl

/-- The account-name fallback never touches the transaction rows. -/
theorem nameFallback_txns (db : BulkDB) (p : TransactionCreate) (aid : Nat)
    (db1 : BulkDB) (h : nameFallback db p = .ok (aid, db1)) :
    db1.txns = db.txns := by
  unfold nameFallback at h
  cases hn : p.account_name with
  | none =>
    rw [hn] at h
    cases h
  | some nm =>
    rw [hn] at h
    dsimp only at h
    by_cases hne : nm.isEmpty
    · rw [if_pos hne] at h
      cases h
    · rw [if_neg hne] at h
      injection h with h1
      have h2 : (get_or_create_account_by_name db p.user_id nm).2 = db1 :=
        congrArg Prod.snd h1
      rw [← h2]
      exact get_or_create_txns db p.user_id nm

/-- Account resolution never touches the transaction rows. -/
theorem resolveAccount_ok_txns (db : BulkDB) (p : TransactionCreate)
    (adb : Nat × BulkDB) (h : resolveAccount db p = .ok adb) :
    adb.2.txns = db.txns := by
  unfold resolveAccount at h
  cases ha : p.account_id with
  | none =>
    rw [ha] at h
    dsimp only at h
    obtain ⟨aid, db1⟩ := adb
    exact nameFallback_txns db p aid db1 h
  | some a =>
    rw [ha] at h
    dsimp only at h
    by_cases h0 : a = 0
    · rw [if_pos h0] at h
      obtain ⟨aid, db1⟩ := adb
      exact nameFallback_txns db p aid db1 h
    · rw [if_neg h0] at h
      injection h with h1
      have h2 : db = adb.2 := congrArg Prod.snd h1
      rw [← h2]

/-- A successful TRANSFER section only appends rows, and one appended row
carries the payload's user and external id. -/
theorem create_transfer_section_ext (db : BulkDB) (p : TransactionCreate)
    (account_id : Nat) (is_bn neutral am : Bool) (t : Txn) (db' : BulkDB)
    (h : create_transfer_section db p account_id is_bn neutral am =
      .ok (t, db')) :
    (∀ x ∈ db.txns, x ∈ db'.txns) ∧
      ∃ r ∈ db'.txns, r.user_id = p.user_id ∧
        r.external_id = p.external_id := by
  unfold create_transfer_section at h
  dsimp only at h
  by_cases ham : am = true
  · rw [if_pos ham] at h
    by_cases hc : truthyId (resolve_counter db p).1 = false
    · rw [if_pos hc] at h
      cases h
    · rw [if_neg hc] at h
      injection h with h1
      rw [Prod.mk.injEq] at h1
      obtain ⟨-, h1b⟩ := h1
      subst h1b
      constructor
      · intro x hx
        have hx2 : x ∈ (resolve_counter db p).2.txns := by
          rw [resolve_counter_txns]
          exact hx
        exact List.mem_append_left _ hx2
      · exact ⟨_, List.mem_append_right _ (List.mem_cons_self _ _), rfl, rfl⟩
  · rw [if_neg ham] at h
    by_cases hc : truthyId (resolve_counter db p).1 = false
    · rw [if_pos hc] at h
      injection h with h1
      rw [Prod.mk.injEq] at h1
      obtain ⟨-, h1b⟩ := h1
      subst h1b
      constructor
      · intro x hx
        have hx2 : x ∈ (resolve_counter db p).2.txns := by
          rw [resolve_counter_txns]
          exact hx
        exact List.mem_append_left _ hx2
      · exact ⟨_, List.mem_append_right _ (List.mem_cons_self _ _), rfl, rfl⟩
    · rw [if_neg hc] at h
      injection h with h1
      rw [Prod.mk.injEq] at h1
      obtain ⟨-, h1b⟩ := h1
      subst h1b
      constructor
      · intro x hx
        have hx2 : x ∈ (resolve_counter db p).2.txns := by
          rw [resolve_counter_txns]
          exact hx
        exact List.mem_append_left _ hx2
      · exact ⟨_, List.mem_append_right _ (List.mem_cons_self _ _), rfl, rfl⟩

/-- A successful fresh creation only appends rows, and one appended row
carries the payload's user and external id. -/
theorem create_transaction_fresh_ext (db : BulkDB) (p : TransactionCreate)
    (bn am : Bool) (t : Txn) (db' : BulkDB)
    (h : create_transaction_fresh db p bn am = .ok (t, db')) :
    (∀ x ∈ db.txns, x ∈ db'.txns) ∧
      ∃ r ∈ db'.txns, r.user_id = p.user_id ∧
        r.external_id = p.external_id := by
  unfold create_transaction_fresh at h
  dsimp only at h
  cases hres : resolveAccount db p with
  | error e =>
    rw [hres] at h
    cases h
  | ok adb =>
    rw [hres] at h
    dsimp only at h
    cases hfa : adb.2.accounts.find? (fun a => a.id == adb.1 &&
        a.user_id == p.user_id) with
    | none =>
      rw [hfa] at h
      dsimp only at h
      cases h
    | some account =>
      rw [hfa] at h
      dsimp only at h
      cases hcc : cardCheck adb.2 p with
      | error e =>
        rw [hcc] at h
        cases h
      | ok uu =>
        rw [hcc] at h
        dsimp only at h
        split_ifs at h
        all_goals try contradiction
        obtain ⟨hmono, r, hr, hru, hre⟩ :=
          create_transfer_section_ext adb.2 p adb.1 _ _ am t db' h
        refine ⟨?_, r, hr, hru, hre⟩
        intro x hx
        refine hmono x ?_
        rw [resolveAccount_ok_txns db p adb hres]
        exact hx

/-- A successful creation only appends rows, and afterwards some row
carries the payload's user and external id (on the idempotent path that
row already existed). -/
theorem create_transaction_ext (db : BulkDB) (p : TransactionCreate)
    (bn am : Bool) (t : Txn) (db' : BulkDB)
    (h : create_transaction db p bn am = .ok (t, db')) :
    (∀ x ∈ db.txns, x ∈ db'.txns) ∧
      ∃ r ∈ db'.txns, r.user_id = p.user_id ∧
        r.external_id = p.external_id := by
  unfold create_transaction at h
  dsimp only at h
  by_cases htr : truthyStr p.external_id = true
  · rw [if_pos htr] at h
    cases hfind : db.txns.find? (fun t => t.user_id == p.user_id &&
        t.external_id == p.external_id) with
    | none =>
      rw [hfind] at h
      dsimp only at h
      exact create_transaction_fresh_ext db p bn am t db' h
    | some t0 =>
      rw [hfind] at h
      dsimp only at h
      injection h with h1
      rw [Prod.mk.injEq] at h1
      obtain ⟨-, h1b⟩ := h1
      subst h1b
      have hp := List.find?_some hfind
      simp only [Bool.and_eq_true, beq_iff_eq] at hp
      exact ⟨fun x hx => hx, t0,
        List.mem_of_find?_eq_some hfind, hp.1, hp.2⟩
  · rw [if_neg htr] at h
    dsimp only at h
    exact create_transaction_fresh_ext db p bn am t db' h

/-- A successful creation loop only appends rows, and leaves a row
carrying each processed item's user and external id. -/
theorem create_loop_ext :
    ∀ (items : List (TransactionCreate × Bool)) (acc : List Txn)
      (db : BulkDB) (rows : List Txn) (db' : BulkDB),
      create_loop (acc, db) items = .ok (rows, db') →
      (∀ x ∈ db.txns, x ∈ db'.txns) ∧
      ∀ ib ∈ items, ∃ r ∈ db'.txns, r.user_id = ib.1.user_id ∧
        r.external_id = ib.1.external_id := by
  intro items
  induction items with
  | nil =>
    intro acc db rows db' h
    simp only [create_loop] at h
    injection h with h1
    rw [Prod.mk.injEq] at h1
    obtain ⟨-, h1b⟩ := h1
    subst h1b
    exact ⟨fun x hx => hx,
      fun ib hib => absurd hib (List.not_mem_nil ib)⟩
  | cons ib rest ih =>
    intro acc db rows db' h
    simp only [create_loop] at h
    cases hcs : create_step (acc, db) ib with
    | error e =>
      rw [hcs] at h
      cases h
    | ok st1 =>
      obtain ⟨acc1, db1⟩ := st1
      rw [hcs] at h
      dsimp only at h
      obtain ⟨hmono1, hrest⟩ := ih acc1 db1 rows db' h
      unfold create_step at hcs
      dsimp only at hcs
      cases hct : create_transaction db ib.1 (bulk_balance_neutral ib.1)
          ib.2 with
      | error e =>
        rw [hct] at hcs
        cases hcs
      | ok r =>
        obtain ⟨tx, db2⟩ := r
        rw [hct] at hcs
        dsimp only at hcs
        injection hcs with h2
        rw [Prod.mk.injEq] at h2
        obtain ⟨-, h2b⟩ := h2
        subst h2b
        obtain ⟨hmono0, r0, hr0, hr0u, hr0e⟩ :=
          create_transaction_ext db ib.1 (bulk_balance_neutral ib.1) ib.2
            tx db2 hct
        constructor
        · exact fun x hx => hmono1 x (hmono0 x hx)
        · intro jb hjb
          rcases List.mem_cons.mp hjb with h3 | h3
          · subst h3
            exact ⟨r0, hmono1 r0 hr0, hr0u, hr0e⟩
          · exact hrest jb h3

/-- Invariant transport through the per-group pairing fold. -/
theorem pair_bulk_fold_prop (P : TransactionCreate → Prop)
    (normalized : List TransactionCreate)
    (hgood : ∀ (k : PDate × Option PTime × String)
      (p : TransactionCreate × Bool),
      p ∈ (pair_transfers_with_tolerance 2 (groupEntries normalized k)).1 →
      P p.1)
    (hgood2 : ∀ (k : PDate × Option PTime × String) (l : TransactionCreate),
      l ∈ (pair_transfers_with_tolerance 2 (groupEntries normalized k)).2 →
      P l) :
    ∀ (keys : List (PDate × Option PTime × String))
      (acc : List (TransactionCreate × Bool) × Nat),
      (∀ ib ∈ acc.1, P ib.1) →
      ∀ ib ∈ (keys.foldl (fun acc k =>
          let pr := pair_transfers_with_tolerance 2 (groupEntries normalized k)
          (acc.1 ++ pr.1 ++ pr.2.map (fun l => (l, false)),
            acc.2 + pr.1.length)) acc).1, P ib.1 := by
  intro keys
  induction keys with
  | nil =>
    intro acc hacc ib hib
    exact hacc ib hib
  | cons k ks ih =>
    intro acc hacc ib hib
    simp only [List.foldl_cons] at hib
    refine ih _ ?_ ib hib
    intro jb hjb
    dsimp only at hjb
    rcases List.mem_append.mp hjb with h1 | h1
    · rcases List.mem_append.mp h1 with h2 | h2
      · exact hacc jb h2
      · exact hgood k jb h2
    · rcases List.mem_map.mp h1 with ⟨l, hl, hlj⟩
      subst hlj
      exact hgood2 k l hl

/-- Every item leaving the batch pairing is a batch entry or was combined
(by `_build_pair`) from two batch entries: any property of the batch
entries preserved by combining holds of every outgoing item. -/
theorem pair_bulk_prop (P : TransactionCreate → Prop)
    (hP : ∀ o ie c, P o → _build_pair o ie = Except.ok c → P c)
    (normalized : List TransactionCreate)
    (hn : ∀ n ∈ normalized, P n) :
    ∀ ib ∈ (_pair_transfers_bulk normalized).1, P ib.1 := by
  have hgp : ∀ (k : PDate × Option PTime × String) (x : TransactionCreate),
      x ∈ groupEntries normalized k → x ∈ normalized := by
    intro k x hx
    unfold groupEntries at hx
    exact (List.mem_filter.mp hx).1
  unfold _pair_transfers_bulk
  refine pair_bulk_fold_prop P normalized ?_ ?_
    (transferGroupKeys normalized) _ ?_
  · intro k p hp
    obtain ⟨-, o, ie, ho, hie, hok⟩ :=
      (pair_tolerance_mem 2 (groupEntries normalized k)).1 p hp
    exact hP o ie p.1 (hn o (hgp k o ho)) hok
  · intro k l hl
    exact hn l
      (hgp k l ((pair_tolerance_mem 2 (groupEntries normalized k)).2 l hl))
  · intro jb hjb
    rcases List.mem_map.mp hjb with ⟨j, hj, hji⟩
    subst hji
    exact hn j (List.mem_filter.mp hj).1

/-- Every item leaving the pairing of an all-transfer batch carries the
caller's user id, the TRANSFER type, and a truthy external id. -/
theorem paired_items_props (items : List TransactionCreate) (u : Nat)
    (htype : ∀ i ∈ items, i.type = TxnType.TRANSFER)
    (hext : ∀ i ∈ items, truthyStr i.external_id = true) :
    ∀ ib ∈ (_pair_transfers_bulk (_normalize_items items u)).1,
      ib.1.user_id = u ∧ ib.1.type = TxnType.TRANSFER ∧
        truthyStr ib.1.external_id = true := by
  refine pair_bulk_prop _ ?_ _ (normalize_props items u htype hext)
  intro o ie c hPo hok
  obtain ⟨hu, ht, he⟩ := hPo
  obtain ⟨-, -, ht', hu', he'⟩ := build_pair_fields o ie c hok
  exact ⟨hu'.trans hu, ht'.trans ht, by rw [he']; exact he⟩

/-- An item's nonempty external id is collected into the batch keys. -/
theorem mem_batch_ext_ids (items : List (TransactionCreate × Bool))
    (ib : TransactionCreate × Bool) (hib : ib ∈ items) (e : String)
    (he : ib.1.external_id = some e) : e ∈ batch_ext_ids items := by
  unfold batch_ext_ids
  have h1 : ib.1.external_id.getD "" = e := by rw [he]; rfl
  rw [← h1]
  exact List.mem_map_of_mem _ (List.mem_filter.mpr ⟨hib, by simp [he]⟩)

/-- A persisted row of the user with a nonempty batch external id puts
that id into the existing-id set. -/
theorem mem_existing_ext_set (u : Nat) (txnsDb : List Txn)
    (items : List (TransactionCreate × Bool)) (r : Txn) (e : String)
    (hr : r ∈ txnsDb) (hru : r.user_id = u) (hre : r.external_id = some e)
    (heb : e.isEmpty = false) (hids : e ∈ batch_ext_ids items) :
    e ∈ existing_ext_set u txnsDb items := by
  have hrow : r ∈ existing_ext_rows u txnsDb items := by
    unfold existing_ext_rows
    refine List.mem_filter.mpr ⟨hr, ?_⟩
    simp [hru, hre, hids]
  have htr : truthyStr r.external_id = true := by
    rw [hre]
    simp [truthyStr, heb]
  have h1 : r.external_id.getD "" = e := by rw [hre]; rfl
  unfold existing_ext_set
  rw [← h1]
  exact List.mem_map_of_mem _ (List.mem_filter.mpr ⟨hrow, htr⟩)

/-- When every item's truthy external id already belongs to one of the
user's persisted rows, the external-id filter drops everything and returns
only persisted rows. -/
theorem ext_filter_drops_all (u : Nat) (txnsDb : List Txn)
    (items : List (TransactionCreate × Bool))
    (ib0 : TransactionCreate × Bool) (h0 : ib0 ∈ items)
    (hrow : ∀ ib ∈ items, truthyStr ib.1.external_id = true ∧
      ∃ r ∈ txnsDb, r.user_id = u ∧ r.external_id = ib.1.external_id) :
    (_filter_existing_by_external_id u txnsDb items).1 = [] ∧
      ∀ t ∈ (_filter_existing_by_external_id u txnsDb items).2.2,
        t ∈ txnsDb := by
  have hkey : ∀ ib ∈ items, ∃ e, ib.1.external_id = some e ∧
      e.isEmpty = false ∧ e ∈ existing_ext_set u txnsDb items := by
    intro ib hib
    obtain ⟨htr, r, hr, hru, hre⟩ := hrow ib hib
    obtain ⟨e, hee, heb⟩ := truthyStr_some _ htr
    exact ⟨e, hee, heb, mem_existing_ext_set u txnsDb items r e hr hru
      (hre.trans hee) heb (mem_batch_ext_ids items ib hib e hee)⟩
  have hg1 : ¬batch_ext_ids items = [] := by
    obtain ⟨e, hee, -, -⟩ := hkey ib0 h0
    have hm := mem_batch_ext_ids items ib0 h0 e hee
    intro hc
    rw [hc] at hm
    exact List.not_mem_nil _ hm
  have hg2 : ¬existing_ext_set u txnsDb items = [] := by
    obtain ⟨e, -, -, hmem⟩ := hkey ib0 h0
    intro hc
    rw [hc] at hmem
    exact List.not_mem_nil _ hmem
  have hhit : ∀ ib ∈ items, ext_dup_hit u txnsDb items ib = true := by
    intro ib hib
    obtain ⟨e, hee, heb, hmem⟩ := hkey ib hib
    unfold ext_dup_hit
    rw [hee]
    dsimp only
    rw [heb]
    simp [hmem]
  unfold _filter_existing_by_external_id
  rw [if_neg hg1, if_neg hg2]
  dsimp only
  refine ⟨foldl_filter_all _ items hhit, ?_⟩
  intro tt htt
  unfold existing_ext_rows at htt
  exact (List.mem_filter.mp htt).1

/-- C4 (amended): re-submitting an all-transfer bulk batch with truthy
external ids a second time creates zero new transaction rows and leaves
the database untouched; however, the second call does NOT return the rows
created by the first call in general - it returns only the still-matching
persisted rows (cross-batch matching against the now-persisted rows can
drop a candidate before the existing-row collection stage), every one of
which is a row already persisted by the first call. -/
theorem C4_resubmission_no_new_rows (db0 : BulkDB) (u : Nat)
    (items : List TransactionCreate)
    (hdb : db0.txns = [])
    (htype : ∀ i ∈ items, i.type = TxnType.TRANSFER)
    (hext : ∀ i ∈ items, truthyStr i.external_id = true)
    (ret1 : List Txn) (db1 : BulkDB) (m1 : Nat)
    (h1 : bulk_create db0 u items = .ok (ret1, db1, m1)) :
    ∃ ret2 m2, bulk_create db1 u items = .ok (ret2, db1, m2) ∧
      ∀ t ∈ ret2, t ∈ db1.txns := by
  cases items with
  | nil =>
    unfold bulk_create at h1
    dsimp only at h1
    injection h1 with h1'
    rw [Prod.mk.injEq] at h1'
    obtain ⟨-, h1b⟩ := h1'
    rw [Prod.mk.injEq] at h1b
    obtain ⟨h1c, -⟩ := h1b
    subst h1c
    exact ⟨[], 0, rfl, fun t ht => absurd ht (List.not_mem_nil t)⟩
  | cons i is =>
    unfold bulk_create at h1
    dsimp only at h1
    rw [hdb] at h1
    rw [db_matches_nil_txns] at h1
    dsimp only at h1
    rw [ext_filter_nil_txns] at h1
    dsimp only at h1
    rw [natural_filter_nil_txns u db0 hdb] at h1
    dsimp only at h1
    have hprops := paired_items_props (i :: is) u htype hext
    rw [settlement_filter_passthrough db0 _
      (fun ib hib => (hprops ib hib).2.1)] at h1
    dsimp only at h1
    cases hcb : _create_transactions_bulk db0
        (_pair_transfers_bulk (_normalize_items (i :: is) u)).1 with
    | error e =>
      rw [hcb] at h1
      cases h1
    | ok cr =>
      obtain ⟨rows1, dbE⟩ := cr
      rw [hcb] at h1
      dsimp only at h1
      injection h1 with h1'
      rw [Prod.mk.injEq] at h1'
      obtain ⟨-, h1b⟩ := h1'
      rw [Prod.mk.injEq] at h1b
      obtain ⟨h1c, -⟩ := h1b
      subst h1c
      unfold _create_transactions_bulk at hcb
      obtain ⟨-, hrows⟩ := create_loop_ext _ [] db0 rows1 dbE hcb
      have hrow2 : ∀ ib ∈ (_apply_db_transfer_matches u dbE.txns
          (_pair_transfers_bulk (_normalize_items (i :: is) u)).1 2 60).1,
          truthyStr ib.1.external_id = true ∧
          ∃ r ∈ dbE.txns, r.user_id = u ∧
            r.external_id = ib.1.external_id := by
        intro ib hib
        have hib1 := db_matches_mem u dbE.txns _ 2 60 ib hib
        obtain ⟨hu', ht', he'⟩ := hprops ib hib1
        obtain ⟨r, hr, hru, hre⟩ := hrows ib hib1
        exact ⟨he', r, hr, hru.trans hu', hre⟩
      have hkey : (_filter_existing_by_external_id u dbE.txns
          (_apply_db_transfer_matches u dbE.txns
            (_pair_transfers_bulk (_normalize_items (i :: is) u)).1
            2 60).1).1 = [] ∧
          ∀ t ∈ (_filter_existing_by_external_id u dbE.txns
            (_apply_db_transfer_matches u dbE.txns
              (_pair_transfers_bulk (_normalize_items (i :: is) u)).1
              2 60).1).2.2, t ∈ dbE.txns := by
        by_cases hempty : (_apply_db_transfer_matches u dbE.txns
            (_pair_transfers_bulk (_normalize_items (i :: is) u)).1
            2 60).1 = []
        · rw [hempty]
          exact ⟨rfl, fun tt htt => absurd htt (List.not_mem_nil tt)⟩
        · obtain ⟨ib0, h0⟩ := List.exists_mem_of_ne_nil _ hempty
          exact ext_filter_drops_all u dbE.txns _ ib0 h0 hrow2
      refine ⟨(_filter_existing_by_external_id u dbE.txns
          (_apply_db_transfer_matches u dbE.txns
            (_pair_transfers_bulk (_normalize_items (i :: is) u)).1
            2 60).1).2.2,
        (_apply_db_transfer_matches u dbE.txns
          (_pair_transfers_bulk (_normalize_items (i :: is) u)).1 2 60).2,
        ?_, hkey.2⟩
      unfold bulk_create
      dsimp only
      rw [hkey.1]
      have hnat : _filter_natural_duplicates u dbE
          ([] : List (TransactionCreate × Bool)) = ([], 0) := rfl
      rw [hnat]
      dsimp only
      have hset : _filter_settlement_duplicates dbE
          ([] : List (TransactionCreate × Bool)) = ([], 0) := rfl
      rw [hset]
      dsimp only
      have hcreate : _create_transactions_bulk dbE
          ([] : List (TransactionCreate × Bool)) = .ok ([], dbE) := rfl
      rw [hcreate]
      dsimp only
      rw [List.append_nil]

/-- Witness for C4: the concrete two-account, three-candidate batch
satisfies the hypotheses, so its re-submission leaves the database
unchanged and returns only already-persisted rows. -/
theorem C4_resubmission_no_new_rows_witness :
    ∃ ret2 m2, bulk_create c4db1 1 c4batch = .ok (ret2, c4db1, m2) ∧
      ∀ t ∈ ret2, t ∈ c4db1.txns :=
  C4_resubmission_no_new_rows c4db0 1 c4batch (by decide) (by decide)
    (by decide) c4ret1 c4db1 0 (by decide)

/-- Witness for C7: the first settle call succeeds, and the second call on
the now-paid statement fails with the 409 conflict. -/
theorem C7_settlement_conflict_terminal_witness :
    settle_credit_card_statement c7db 1 c7payload = .ok c7dbAfter ∧
      settle_credit_card_statement c7dbAfter 1 c7payload =
        .error (409, "Statement already settled") :=
  ⟨by decide,
    (C7_settlement_conflict_terminal c7db 1 c7payload c7payload c7dbAfter
      ⟨1, 1, 1, ⟨2024, 12, 21⟩, ⟨2025, 1, 20⟩, ⟨2025, 2, 5⟩, 45000, .PENDING, none⟩).2.2
      (by decide)⟩

end PFM
